import Mathlib

set_option maxHeartbeats 1000000

/- Verification of the exercise repetition counter core of src/app.py.

   Modelling conventions:
   - MediaPipe landmarks are Python dicts whose keys "x"/"y" may be absent;
     a landmark is a pair of optional real coordinates.
   - Python floats are modelled as real numbers; timestamps in milliseconds
     are integers.
   - Each classifier body runs inside try/except.  The body is modelled as an
     `Except`-valued function whose error carries the exception message and the
     state as mutated up to the raise point; the wrapper `handle` models the
     except-clause, which answers with the current repCounter/stage and a
     diagnostic feedback string.  The only statements in a classifier body that
     can raise are the positional landmark accesses (IndexError when the list
     is too short) and, in the squat classifier, the division by the stored
     initial hip height (ZeroDivisionError when that height is 0). -/

/-- A 2-D point with both coordinates present. -/
structure Pt where
  x : ℝ
  y : ℝ

/-- A landmark dict: each of the coordinate keys may be absent. -/
structure Landmark where
  x : Option ℝ
  y : Option ℝ

/-- `all(k in lm for k in ['x', 'y'])`: both coordinate keys are present.
    This key-presence test is the visibility gate used throughout app.py. -/
def hasXY (lm : Landmark) : Prop := lm.x.isSome ∧ lm.y.isSome

instance (lm : Landmark) : Decidable (hasXY lm) := by
  unfold hasXY
  infer_instance

/-- Total stand-in for the dict accesses `lm['x']`, `lm['y']`.  Every use in
    the classifiers below is guarded by `hasXY`, so the default value is never
    read on a reachable path. -/
def pt (lm : Landmark) : Pt := ⟨lm.x.getD 0, lm.y.getD 0⟩

/-- A landmark dict with neither coordinate key. -/
def noLm : Landmark := ⟨none, none⟩

/-- A landmark dict with both coordinate keys. -/
def mkLm (p : Pt) : Landmark := ⟨some p.x, some p.y⟩

/-- `calculate_angle` (app.py lines 101-140): the angle at vertex `b` between
    the rays towards `a` and `c`, via the clamped cosine.  With real-valued
    inputs carrying both coordinates the body cannot raise, so the enclosing
    try/except of the source is invisible here: the function is total. -/
noncomputable def calculate_angle (a b c : Pt) : ℝ :=
  let vbax := a.x - b.x
  let vbay := a.y - b.y
  let vbcx := c.x - b.x
  let vbcy := c.y - b.y
  let dot_product := vbax * vbcx + vbay * vbcy
  let magnitude_ba := Real.sqrt (vbax ^ 2 + vbay ^ 2)
  let magnitude_bc := Real.sqrt (vbcx ^ 2 + vbcy ^ 2)
  if magnitude_ba = 0 ∨ magnitude_bc = 0 then 0
  else
    let cos_angle := max (min (dot_product / (magnitude_ba * magnitude_bc)) 1) (-1)
    Real.arccos cos_angle * (180 / Real.pi)

lemma calculate_angle_nonneg (a b c : Pt) : 0 ≤ calculate_angle a b c := by
  unfold calculate_angle
  dsimp only
  split
  · exact le_refl 0
  · exact mul_nonneg (Real.arccos_nonneg _) (by positivity)

lemma calculate_angle_le_180 (a b c : Pt) : calculate_angle a b c ≤ 180 := by
  unfold calculate_angle
  dsimp only
  split
  · norm_num
  · have h1 : Real.arccos (max (min (((a.x - b.x) * (c.x - b.x) + (a.y - b.y) * (c.y - b.y)) /
        (Real.sqrt ((a.x - b.x) ^ 2 + (a.y - b.y) ^ 2) *
         Real.sqrt ((c.x - b.x) ^ 2 + (c.y - b.y) ^ 2))) 1) (-1)) ≤ Real.pi :=
      Real.arccos_le_pi _
    have h2 : (0 : ℝ) ≤ 180 / Real.pi := by positivity
    calc Real.arccos _ * (180 / Real.pi) ≤ Real.pi * (180 / Real.pi) :=
          mul_le_mul_of_nonneg_right h1 h2
      _ = 180 := by field_simp

lemma calculate_angle_left_eq (b c : Pt) : calculate_angle b b c = 0 := by
  unfold calculate_angle
  rw [if_pos]
  left
  simp [sub_self]

lemma calculate_angle_right_eq (a b : Pt) : calculate_angle a b b = 0 := by
  unfold calculate_angle
  rw [if_pos]
  right
  simp [sub_self]

lemma calculate_angle_mag_left_zero (a b c : Pt)
    (h : Real.sqrt ((a.x - b.x) ^ 2 + (a.y - b.y) ^ 2) = 0) :
    calculate_angle a b c = 0 := by
  unfold calculate_angle
  rw [if_pos (Or.inl h)]

lemma calculate_angle_mag_right_zero (a b c : Pt)
    (h : Real.sqrt ((c.x - b.x) ^ 2 + (c.y - b.y) ^ 2) = 0) :
    calculate_angle a b c = 0 := by
  unfold calculate_angle
  rw [if_pos (Or.inr h)]

/-- Returning to the same point: the two rays coincide, the clamped cosine is
    1 and the angle is 0. -/
lemma calculate_angle_aba (a b : Pt) : calculate_angle a b a = 0 := by
  by_cases hab : a = b
  · subst hab
    exact calculate_angle_left_eq a a
  · have hne : (a.x - b.x) ^ 2 + (a.y - b.y) ^ 2 ≠ 0 := by
      intro h0
      apply hab
      have hx : a.x - b.x = 0 := by nlinarith [sq_nonneg (a.x - b.x), sq_nonneg (a.y - b.y)]
      have hy : a.y - b.y = 0 := by nlinarith [sq_nonneg (a.x - b.x), sq_nonneg (a.y - b.y)]
      cases a
      cases b
      simp only [Pt.mk.injEq]
      constructor <;> linarith [hx, hy]
    have hpos : 0 < (a.x - b.x) ^ 2 + (a.y - b.y) ^ 2 :=
      lt_of_le_of_ne (by positivity) (Ne.symm hne)
    have hm : Real.sqrt ((a.x - b.x) ^ 2 + (a.y - b.y) ^ 2) ≠ 0 := by
      rw [Real.sqrt_ne_zero']
      exact hpos
    unfold calculate_angle
    rw [if_neg (by push_neg; exact ⟨hm, hm⟩)]
    have hsq : Real.sqrt ((a.x - b.x) ^ 2 + (a.y - b.y) ^ 2) *
        Real.sqrt ((a.x - b.x) ^ 2 + (a.y - b.y) ^ 2) = (a.x - b.x) ^ 2 + (a.y - b.y) ^ 2 :=
      Real.mul_self_sqrt (by positivity)
    have hquot : ((a.x - b.x) * (a.x - b.x) + (a.y - b.y) * (a.y - b.y)) /
        (Real.sqrt ((a.x - b.x) ^ 2 + (a.y - b.y) ^ 2) *
         Real.sqrt ((a.x - b.x) ^ 2 + (a.y - b.y) ^ 2)) = 1 := by
      rw [hsq]
      field_simp
      ring
    simp only [hquot]
    norm_num [Real.arccos_one]

/-- A vertically colinear triple with the vertex strictly between the ends:
    the cosine is exactly -1 and the angle is 180 degrees. -/
lemma calculate_angle_vertical (x y1 y2 y3 : ℝ) (h12 : y2 < y1) (h23 : y3 < y2) :
    calculate_angle ⟨x, y1⟩ ⟨x, y2⟩ ⟨x, y3⟩ = 180 := by
  unfold calculate_angle
  have hp : (0 : ℝ) < y1 - y2 := by linarith
  have hq : y3 - y2 < 0 := by linarith
  have hs1 : Real.sqrt ((x - x) ^ 2 + (y1 - y2) ^ 2) = y1 - y2 := by
    rw [show (x - x) ^ 2 + (y1 - y2) ^ 2 = (y1 - y2) ^ 2 by ring]
    exact Real.sqrt_sq hp.le
  have hs2 : Real.sqrt ((x - x) ^ 2 + (y3 - y2) ^ 2) = y2 - y3 := by
    rw [show (x - x) ^ 2 + (y3 - y2) ^ 2 = (y2 - y3) ^ 2 by ring]
    exact Real.sqrt_sq (by linarith)
  simp only [hs1, hs2]
  rw [if_neg (by push_neg; constructor <;> intro h <;> linarith)]
  have hquot : ((x - x) * (x - x) + (y1 - y2) * (y3 - y2)) / ((y1 - y2) * (y2 - y3)) = -1 := by
    rw [show (x - x) * (x - x) + (y1 - y2) * (y3 - y2) = -((y1 - y2) * (y2 - y3)) by ring]
    rw [neg_div]
    rw [div_self (ne_of_gt (mul_pos hp (by linarith)))]
  simp only [hquot]
  rw [min_eq_left (by norm_num), max_self, Real.arccos_neg_one]
  field_simp

/-- A unit vector at angle `θ` against the unit vector along the x axis: the
    computed angle is exactly `θ` in degrees. -/
lemma calculate_angle_unit (θ : ℝ) (h0 : 0 ≤ θ) (h1 : θ ≤ Real.pi) :
    calculate_angle ⟨1, 0⟩ ⟨0, 0⟩ ⟨Real.cos θ, Real.sin θ⟩ = θ * (180 / Real.pi) := by
  unfold calculate_angle
  have hm1 : Real.sqrt (((1 : ℝ) - 0) ^ 2 + ((0 : ℝ) - 0) ^ 2) = 1 := by
    norm_num
  have hm2 : Real.sqrt ((Real.cos θ - 0) ^ 2 + (Real.sin θ - 0) ^ 2) = 1 := by
    rw [show (Real.cos θ - 0) ^ 2 + (Real.sin θ - 0) ^ 2 = Real.cos θ ^ 2 + Real.sin θ ^ 2 by ring]
    rw [Real.cos_sq_add_sin_sq, Real.sqrt_one]
  simp only [hm1, hm2]
  rw [if_neg (by norm_num)]
  have hquot : ((1 - 0) * (Real.cos θ - 0) + (0 - 0) * (Real.sin θ - 0)) / ((1 : ℝ) * 1) =
      Real.cos θ := by ring
  simp only [hquot]
  rw [min_eq_left (Real.cos_le_one θ), max_eq_left (by linarith [Real.neg_one_le_cos θ])]
  rw [Real.arccos_cos h0 h1]

/-- The per-session mutable state dict (app.py lines 46-57).  The last three
    fields model the keys created lazily by the squat and pushup classifiers;
    `none` models key absence. -/
structure ExState where
  repCounter : ℕ
  stage : String
  lastRepTime : ℤ
  holdStart : ℤ
  leftArmStage : String
  rightArmStage : String
  leftArmHoldStart : ℤ
  rightArmHoldStart : ℤ
  exerciseType : String
  initial_hip_height : Option ℝ
  reference_height : Option ℝ
  torso_length : Option ℝ

/-- One labelled entry of the diagnostic `angles` payload. -/
structure AngleEntry where
  value : ℝ
  position : Pt

abbrev Angles := List (String × AngleEntry)

/-- A classifier result dict.  `feedback` and `angles` are optional because
    several classifier paths omit those keys. -/
structure ExResult where
  repCounter : ℕ
  stage : String
  feedback : Option String
  angles : Option Angles

/-- The except-clause shared by every classifier (e.g. app.py lines 232-238):
    the current repCounter/stage with a diagnostic feedback string. -/
def errorResult (s : ExState) (msg : String) : ExResult :=
  {repCounter := s.repCounter, stage := s.stage, feedback := some ("Error: " ++ msg),
   angles := none}

/-- Wrap a classifier body in its try/except. -/
def handle (x : Except (String × ExState) (ExResult × ExState)) : ExResult × ExState :=
  match x with
  | .ok p => p
  | .error e => (errorResult e.2 e.1, e.2)

def indexMsg : String := "list index out of range"

def divMsg : String := "float division by zero"

/-- The counter/debounce contract of one classifier call: either the counter
    and the last-rep timestamp are untouched, or the counter increased by one,
    the cooldown had elapsed, and the timestamp advanced to the call time. -/
def StepOk (s s' : ExState) (t cd : ℤ) : Prop :=
  (s'.repCounter = s.repCounter ∧ s'.lastRepTime = s.lastRepTime) ∨
  (s'.repCounter = s.repCounter + 1 ∧ s'.lastRepTime = t ∧ t - s.lastRepTime > cd)

/-- One arm of the bicep-curl detector (app.py lines 175-182 and 196-203).
    Input and output are the per-arm stage and hold-start fields; the boolean
    reports whether a hold-verified curl completed on this frame. -/
noncomputable def bicep_arm_step (angle : ℝ) (stg : String) (hs t hold : ℤ) :
    Bool × String × ℤ :=
  let stg1 := if angle > 150 then ("down") else stg
  let hs1 := if angle > 150 then t else hs
  if angle < 40 ∧ stg1 = ("down") then
    if t - hs1 > hold then (true, ("up"), hs1) else (false, stg1, hs1)
  else (false, stg1, hs1)

/-- Rep counting and result assembly of the bicep-curl classifier (app.py
    205-230), applied to the state already carrying the per-arm updates. -/
def bicep_finish (ldet rdet : Bool) (angles : Angles) (s2 : ExState) (t cd : ℤ) :
    ExResult × ExState :=
  if (ldet ∨ rdet) ∧ t - s2.lastRepTime > cd then
    let s3 := {s2 with repCounter := s2.repCounter + 1, lastRepTime := t}
    let feedback :=
      if ldet ∧ rdet then ("Great form! Both arms curled.")
      else if ldet then ("Left arm curl detected.")
      else if rdet then ("Right arm curl detected.")
      else ("Good rep!")
    ({repCounter := s3.repCounter, stage := if ldet ∨ rdet then ("up") else ("down"),
      feedback := some feedback, angles := some angles}, s3)
  else
    ({repCounter := s2.repCounter,
      stage := if ldet then s2.leftArmStage else s2.rightArmStage,
      feedback := none, angles := some angles}, s2)

/-- Body of `process_bicep_curl` after landmark extraction (app.py 156-230). -/
noncomputable def bicep_core (lsh lel lwr rsh rel rwr : Landmark) (s : ExState)
    (t cd hold : ℤ) : ExResult × ExState :=
  let leftValid := hasXY lsh ∧ hasXY lel ∧ hasXY lwr
  let rightValid := hasXY rsh ∧ hasXY rel ∧ hasXY rwr
  let la := calculate_angle (pt lsh) (pt lel) (pt lwr)
  let ra := calculate_angle (pt rsh) (pt rel) (pt rwr)
  let L := if leftValid then bicep_arm_step la s.leftArmStage s.leftArmHoldStart t hold
           else (false, s.leftArmStage, s.leftArmHoldStart)
  let R := if rightValid then bicep_arm_step ra s.rightArmStage s.rightArmHoldStart t hold
           else (false, s.rightArmStage, s.rightArmHoldStart)
  let angles : Angles :=
    (if leftValid then [(("L" : String), AngleEntry.mk la (pt lel))] else []) ++
    (if rightValid then [(("R" : String), AngleEntry.mk ra (pt rel))] else [])
  let s2 := {s with leftArmStage := L.2.1, leftArmHoldStart := L.2.2,
                    rightArmStage := R.2.1, rightArmHoldStart := R.2.2}
  bicep_finish L.1 R.1 angles s2 t cd

/-- The positional landmark accesses of the bicep-curl classifier (app.py
    147-154); `none` models the IndexError raised on a too-short list. -/
def bicep_lms (lms : List Landmark) :
    Option (Landmark × Landmark × Landmark × Landmark × Landmark × Landmark) :=
  match lms[11]?, lms[13]?, lms[15]?, lms[12]?, lms[14]?, lms[16]? with
  | some a, some b, some c, some d, some e, some f => some (a, b, c, d, e, f)
  | _, _, _, _, _, _ => none

noncomputable def bicep_body (lms : List Landmark) (s : ExState) (t cd hold : ℤ) :
    Except (String × ExState) (ExResult × ExState) :=
  match bicep_lms lms with
  | some (lsh, lel, lwr, rsh, rel, rwr) => .ok (bicep_core lsh lel lwr rsh rel rwr s t cd hold)
  | none => .error (indexMsg, s)

/-- `process_bicep_curl` (app.py 143-238). -/
noncomputable def process_bicep_curl (lms : List Landmark) (s : ExState) (t cd hold : ℤ) :
    ExResult × ExState := handle (bicep_body lms s t cd hold)

lemma bicep_finish_ok (ldet rdet : Bool) (angles : Angles) (s2 : ExState) (t cd : ℤ) :
    StepOk s2 (bicep_finish ldet rdet angles s2 t cd).2 t cd ∧
    (bicep_finish ldet rdet angles s2 t cd).1.repCounter =
      (bicep_finish ldet rdet angles s2 t cd).2.repCounter := by
  unfold bicep_finish StepOk
  split
  · next h => exact ⟨Or.inr ⟨rfl, rfl, h.2⟩, rfl⟩
  · exact ⟨Or.inl ⟨rfl, rfl⟩, rfl⟩

lemma bicep_core_ok (lsh lel lwr rsh rel rwr : Landmark) (s : ExState) (t cd hold : ℤ) :
    StepOk s (bicep_core lsh lel lwr rsh rel rwr s t cd hold).2 t cd ∧
    (bicep_core lsh lel lwr rsh rel rwr s t cd hold).1.repCounter =
      (bicep_core lsh lel lwr rsh rel rwr s t cd hold).2.repCounter := by
  unfold bicep_core
  exact bicep_finish_ok _ _ _ _ t cd

lemma process_bicep_curl_ok (lms : List Landmark) (s : ExState) (t cd hold : ℤ) :
    StepOk s (process_bicep_curl lms s t cd hold).2 t cd ∧
    (process_bicep_curl lms s t cd hold).1.repCounter =
      (process_bicep_curl lms s t cd hold).2.repCounter := by
  unfold process_bicep_curl bicep_body
  rcases h : bicep_lms lms with _ | ⟨lsh, lel, lwr, rsh, rel, rwr⟩
  · exact ⟨Or.inl ⟨rfl, rfl⟩, rfl⟩
  · exact bicep_core_ok lsh lel lwr rsh rel rwr s t cd hold

/-- The fresh per-session state dict (app.py lines 47-57). -/
def freshState (ex : String) : ExState :=
  {repCounter := 0, stage := ("down"), lastRepTime := 0, holdStart := 0,
   leftArmStage := ("down"), rightArmStage := ("down"),
   leftArmHoldStart := 0, rightArmHoldStart := 0, exerciseType := ex,
   initial_hip_height := none, reference_height := none, torso_length := none}

/-- A 17-landmark frame carrying only the left-arm landmarks (indices 11, 13,
    15 are shoulder, elbow, wrist); the other entries lack coordinates. -/
def mkLeftFrame (a e w : Pt) : List Landmark :=
  [noLm, noLm, noLm, noLm, noLm, noLm, noLm, noLm, noLm, noLm, noLm,
   mkLm a, noLm, mkLm e, noLm, mkLm w, noLm]

lemma bicep_lms_mkLeftFrame (a e w : Pt) :
    bicep_lms (mkLeftFrame a e w) = some (mkLm a, mkLm e, mkLm w, noLm, noLm, noLm) := rfl

lemma hasXY_mkLm (p : Pt) : hasXY (mkLm p) := ⟨rfl, rfl⟩

lemma not_hasXY_noLm : ¬ hasXY noLm := by
  intro h
  simp [hasXY, noLm] at h

lemma pt_mkLm (p : Pt) : pt (mkLm p) = p := rfl

lemma process_bicep_curl_leftFrame (a e w : Pt) (s : ExState) (t cd hold : ℤ) :
    process_bicep_curl (mkLeftFrame a e w) s t cd hold =
      (let L := bicep_arm_step (calculate_angle a e w) s.leftArmStage s.leftArmHoldStart t hold
       bicep_finish L.1 false [(("L" : String), AngleEntry.mk (calculate_angle a e w) e)]
         {s with leftArmStage := L.2.1, leftArmHoldStart := L.2.2} t cd) := by
  unfold process_bicep_curl bicep_body
  rw [bicep_lms_mkLeftFrame]
  show handle (.ok (bicep_core (mkLm a) (mkLm e) (mkLm w) noLm noLm noLm s t cd hold)) = _
  unfold handle bicep_core
  dsimp only
  rw [if_pos ⟨hasXY_mkLm a, hasXY_mkLm e, hasXY_mkLm w⟩,
      if_neg (fun h : hasXY noLm ∧ hasXY noLm ∧ hasXY noLm => not_hasXY_noLm h.1),
      if_pos ⟨hasXY_mkLm a, hasXY_mkLm e, hasXY_mkLm w⟩,
      if_neg (fun h : hasXY noLm ∧ hasXY noLm ∧ hasXY noLm => not_hasXY_noLm h.1)]
  simp only [pt_mkLm, List.append_nil]

lemma bicep_arm_step_ext (angle : ℝ) (h : angle > 150) (stg : String) (hs t hold : ℤ) :
    bicep_arm_step angle stg hs t hold = (false, ("down"), t) := by
  unfold bicep_arm_step
  rw [if_pos h, if_pos h, if_neg (fun hc => absurd hc.1 (by linarith))]

lemma bicep_arm_step_flex_hold (angle : ℝ) (h40 : angle < 40) (hng : ¬ angle > 150)
    (hs t hold : ℤ) (hh : t - hs > hold) :
    bicep_arm_step angle ("down") hs t hold = (true, ("up"), hs) := by
  unfold bicep_arm_step
  rw [if_neg hng, if_neg hng, if_pos ⟨h40, rfl⟩, if_pos hh]

lemma bicep_arm_step_flex_nohold (angle : ℝ) (h40 : angle < 40) (hng : ¬ angle > 150)
    (hs t hold : ℤ) (hh : ¬ t - hs > hold) :
    bicep_arm_step angle ("down") hs t hold = (false, ("down"), hs) := by
  unfold bicep_arm_step
  rw [if_neg hng, if_neg hng, if_pos ⟨h40, rfl⟩, if_neg hh]

lemma bicep_arm_step_flex_up (angle : ℝ) (hng : ¬ angle > 150) (hs t hold : ℤ) :
    bicep_arm_step angle ("up") hs t hold = (false, ("up"), hs) := by
  unfold bicep_arm_step
  rw [if_neg hng, if_neg hng, if_neg (fun hc => by simpa using hc.2)]

lemma bicep_finish_false (angles : Angles) (s2 : ExState) (t cd : ℤ) :
    bicep_finish false false angles s2 t cd =
      ({repCounter := s2.repCounter, stage := s2.rightArmStage, feedback := none,
        angles := some angles}, s2) := by
  unfold bicep_finish
  rw [if_neg (fun h => by simpa using h.1)]
  simp

lemma bicep_finish_left_rep (angles : Angles) (s2 : ExState) (t cd : ℤ)
    (hcd : t - s2.lastRepTime > cd) :
    bicep_finish true false angles s2 t cd =
      ({repCounter := s2.repCounter + 1, stage := ("up"),
        feedback := some ("Left arm curl detected."), angles := some angles},
       {s2 with repCounter := s2.repCounter + 1, lastRepTime := t}) := by
  unfold bicep_finish
  rw [if_pos ⟨Or.inl rfl, hcd⟩]
  simp

/-- C6: for every three 2-D points, `calculate_angle` yields a value in
    [0, 180] degrees, returns exactly 0 whenever the vector from the vertex to
    either end has zero magnitude (in particular when `a = b` or `c = b`), and
    — being a total function — never raises. -/
theorem claim_C6 (a b c : Pt) :
    0 ≤ calculate_angle a b c ∧ calculate_angle a b c ≤ 180 ∧
    (Real.sqrt ((a.x - b.x) ^ 2 + (a.y - b.y) ^ 2) = 0 ∨
       Real.sqrt ((c.x - b.x) ^ 2 + (c.y - b.y) ^ 2) = 0 →
     calculate_angle a b c = 0) ∧
    ((a = b ∨ c = b) → calculate_angle a b c = 0) := by
  refine ⟨calculate_angle_nonneg a b c, calculate_angle_le_180 a b c, ?_, ?_⟩
  · intro h
    rcases h with h | h
    · exact calculate_angle_mag_left_zero a b c h
    · exact calculate_angle_mag_right_zero a b c h
  · intro h
    rcases h with h | h
    · rw [h]
      exact calculate_angle_left_eq b c
    · rw [h]
      exact calculate_angle_right_eq a b

theorem claim_C6_witness :
    calculate_angle ⟨0, 0⟩ ⟨0, 0⟩ ⟨1, 2⟩ = 0 ∧
    0 ≤ calculate_angle ⟨3, 4⟩ ⟨0, 0⟩ ⟨1, 2⟩ ∧
    calculate_angle ⟨3, 4⟩ ⟨0, 0⟩ ⟨1, 2⟩ ≤ 180 :=
  ⟨(claim_C6 ⟨0, 0⟩ ⟨0, 0⟩ ⟨1, 2⟩).2.2.2 (Or.inl rfl),
   (claim_C6 ⟨3, 4⟩ ⟨0, 0⟩ ⟨1, 2⟩).1,
   (claim_C6 ⟨3, 4⟩ ⟨0, 0⟩ ⟨1, 2⟩).2.1⟩

/-- C3: for the bicep-curl classifier, an arm that goes from extended
    (angle above 150) to flexed (angle below 40) only 100 ms later, and back
    to extended 100 ms after that, never increments `repCounter`: the flexed
    frame arrives before the 500 ms hold threshold has elapsed since the
    extended frame that armed the hold timer. -/
theorem claim_C3 (a1 e1 w1 a2 e2 w2 a3 e3 w3 : Pt) (s : ExState) (t0 : ℤ)
    (h1 : calculate_angle a1 e1 w1 > 150) (h2 : calculate_angle a2 e2 w2 < 40)
    (h3 : calculate_angle a3 e3 w3 > 150) :
    (process_bicep_curl (mkLeftFrame a1 e1 w1) s t0 1000 500).1.repCounter = s.repCounter ∧
    (process_bicep_curl (mkLeftFrame a2 e2 w2)
        (process_bicep_curl (mkLeftFrame a1 e1 w1) s t0 1000 500).2
        (t0 + 100) 1000 500).1.repCounter = s.repCounter ∧
    (process_bicep_curl (mkLeftFrame a3 e3 w3)
        (process_bicep_curl (mkLeftFrame a2 e2 w2)
          (process_bicep_curl (mkLeftFrame a1 e1 w1) s t0 1000 500).2
          (t0 + 100) 1000 500).2
        (t0 + 200) 1000 500).1.repCounter = s.repCounter ∧
    (process_bicep_curl (mkLeftFrame a3 e3 w3)
        (process_bicep_curl (mkLeftFrame a2 e2 w2)
          (process_bicep_curl (mkLeftFrame a1 e1 w1) s t0 1000 500).2
          (t0 + 100) 1000 500).2
        (t0 + 200) 1000 500).2.repCounter = s.repCounter := by
  have hp1 : process_bicep_curl (mkLeftFrame a1 e1 w1) s t0 1000 500 =
      ({repCounter := s.repCounter, stage := s.rightArmStage, feedback := none,
        angles := some [(("L" : String), AngleEntry.mk (calculate_angle a1 e1 w1) e1)]},
       {s with leftArmStage := ("down"), leftArmHoldStart := t0}) := by
    rw [process_bicep_curl_leftFrame]
    dsimp only
    rw [bicep_arm_step_ext _ h1]
    exact bicep_finish_false _ _ _ _
  rw [hp1]
  have hp2 : process_bicep_curl (mkLeftFrame a2 e2 w2)
      {s with leftArmStage := ("down"), leftArmHoldStart := t0} (t0 + 100) 1000 500 =
      ({repCounter := s.repCounter, stage := s.rightArmStage, feedback := none,
        angles := some [(("L" : String), AngleEntry.mk (calculate_angle a2 e2 w2) e2)]},
       {s with leftArmStage := ("down"), leftArmHoldStart := t0}) := by
    rw [process_bicep_curl_leftFrame]
    dsimp only
    rw [bicep_arm_step_flex_nohold _ h2 (by linarith) t0 (t0 + 100) 500 (by omega)]
    exact bicep_finish_false _ _ _ _
  rw [hp2]
  have hp3 : process_bicep_curl (mkLeftFrame a3 e3 w3)
      {s with leftArmStage := ("down"), leftArmHoldStart := t0} (t0 + 200) 1000 500 =
      ({repCounter := s.repCounter, stage := s.rightArmStage, feedback := none,
        angles := some [(("L" : String), AngleEntry.mk (calculate_angle a3 e3 w3) e3)]},
       {s with leftArmStage := ("down"), leftArmHoldStart := t0 + 200}) := by
    rw [process_bicep_curl_leftFrame]
    dsimp only
    rw [bicep_arm_step_ext _ h3]
    exact bicep_finish_false _ _ _ _
  rw [hp3]
  exact ⟨rfl, rfl, rfl, rfl⟩

theorem claim_C3_witness :
    (process_bicep_curl (mkLeftFrame ⟨0, 2⟩ ⟨0, 1⟩ ⟨0, 0⟩)
        (freshState ("bicepCurl")) 0 1000 500).1.repCounter =
      (freshState ("bicepCurl")).repCounter ∧
    (process_bicep_curl (mkLeftFrame ⟨1, 0⟩ ⟨0, 0⟩ ⟨1, 0⟩)
        (process_bicep_curl (mkLeftFrame ⟨0, 2⟩ ⟨0, 1⟩ ⟨0, 0⟩)
          (freshState ("bicepCurl")) 0 1000 500).2
        (0 + 100) 1000 500).1.repCounter = (freshState ("bicepCurl")).repCounter ∧
    (process_bicep_curl (mkLeftFrame ⟨0, 2⟩ ⟨0, 1⟩ ⟨0, 0⟩)
        (process_bicep_curl (mkLeftFrame ⟨1, 0⟩ ⟨0, 0⟩ ⟨1, 0⟩)
          (process_bicep_curl (mkLeftFrame ⟨0, 2⟩ ⟨0, 1⟩ ⟨0, 0⟩)
            (freshState ("bicepCurl")) 0 1000 500).2
          (0 + 100) 1000 500).2
        (0 + 200) 1000 500).1.repCounter = (freshState ("bicepCurl")).repCounter ∧
    (process_bicep_curl (mkLeftFrame ⟨0, 2⟩ ⟨0, 1⟩ ⟨0, 0⟩)
        (process_bicep_curl (mkLeftFrame ⟨1, 0⟩ ⟨0, 0⟩ ⟨1, 0⟩)
          (process_bicep_curl (mkLeftFrame ⟨0, 2⟩ ⟨0, 1⟩ ⟨0, 0⟩)
            (freshState ("bicepCurl")) 0 1000 500).2
          (0 + 100) 1000 500).2
        (0 + 200) 1000 500).2.repCounter = (freshState ("bicepCurl")).repCounter :=
  claim_C3 ⟨0, 2⟩ ⟨0, 1⟩ ⟨0, 0⟩ ⟨1, 0⟩ ⟨0, 0⟩ ⟨1, 0⟩ ⟨0, 2⟩ ⟨0, 1⟩ ⟨0, 0⟩
    (freshState ("bicepCurl")) 0
    (by rw [calculate_angle_vertical 0 2 1 0 (by norm_num) (by norm_num)]; norm_num)
    (by rw [calculate_angle_aba ⟨1, 0⟩ ⟨0, 0⟩]; norm_num)
    (by rw [calculate_angle_vertical 0 2 1 0 (by norm_num) (by norm_num)]; norm_num)

lemma angle_170 : calculate_angle ⟨1, 0⟩ ⟨0, 0⟩
    ⟨Real.cos (17 * Real.pi / 18), Real.sin (17 * Real.pi / 18)⟩ = 170 := by
  rw [calculate_angle_unit (17 * Real.pi / 18) (by positivity) (by linarith [Real.pi_pos])]
  field_simp
  ring

lemma angle_30 : calculate_angle ⟨1, 0⟩ ⟨0, 0⟩
    ⟨Real.cos (Real.pi / 6), Real.sin (Real.pi / 6)⟩ = 30 := by
  rw [calculate_angle_unit (Real.pi / 6) (by positivity) (by linarith [Real.pi_pos])]
  field_simp
  ring

/-- C7: bicep-curl round trip from a fresh session.  A frame whose left elbow
    angle is 170 degrees produces no rep; a frame 600 ms later at 30 degrees
    produces `repCounter = 1` with stage "up"; an identical 30-degree frame
    200 ms after that, inside the 1000 ms cooldown, leaves `repCounter = 1`.
    (The first call must not occur in the first 400 ms after the epoch that
    `lastRepTime = 0` refers to, which wall-clock times always satisfy.) -/
theorem claim_C7 (a1 e1 w1 a2 e2 w2 : Pt) (t1 : ℤ)
    (h170 : calculate_angle a1 e1 w1 = 170) (h30 : calculate_angle a2 e2 w2 = 30)
    (ht : 400 < t1) :
    (process_bicep_curl (mkLeftFrame a1 e1 w1) (freshState ("bicepCurl"))
        t1 1000 500).1.repCounter = 0 ∧
    (process_bicep_curl (mkLeftFrame a2 e2 w2)
        (process_bicep_curl (mkLeftFrame a1 e1 w1) (freshState ("bicepCurl"))
          t1 1000 500).2
        (t1 + 600) 1000 500).1.repCounter = 1 ∧
    (process_bicep_curl (mkLeftFrame a2 e2 w2)
        (process_bicep_curl (mkLeftFrame a1 e1 w1) (freshState ("bicepCurl"))
          t1 1000 500).2
        (t1 + 600) 1000 500).1.stage = ("up") ∧
    (process_bicep_curl (mkLeftFrame a2 e2 w2)
        (process_bicep_curl (mkLeftFrame a2 e2 w2)
          (process_bicep_curl (mkLeftFrame a1 e1 w1) (freshState ("bicepCurl"))
            t1 1000 500).2
          (t1 + 600) 1000 500).2
        (t1 + 800) 1000 500).1.repCounter = 1 := by
  have h0 : freshState ("bicepCurl") =
      ExState.mk 0 ("down") 0 0 ("down") ("down") 0 0 ("bicepCurl") none none none := rfl
  rw [h0]
  have hcd : (t1 : ℤ) + 600 - 0 > 1000 := by omega
  have hp1 : process_bicep_curl (mkLeftFrame a1 e1 w1)
      (ExState.mk 0 ("down") 0 0 ("down") ("down") 0 0 ("bicepCurl") none none none)
      t1 1000 500 =
      (ExResult.mk 0 ("down") none
         (some [(("L" : String), AngleEntry.mk (calculate_angle a1 e1 w1) e1)]),
       ExState.mk 0 ("down") 0 0 ("down") ("down") t1 0 ("bicepCurl") none none none) := by
    rw [process_bicep_curl_leftFrame]
    dsimp only
    rw [bicep_arm_step_ext _ (by rw [h170]; norm_num)]
    dsimp only
    rw [bicep_finish_false]
  rw [hp1]
  dsimp only
  have hp2 : process_bicep_curl (mkLeftFrame a2 e2 w2)
      (ExState.mk 0 ("down") 0 0 ("down") ("down") t1 0 ("bicepCurl") none none none)
      (t1 + 600) 1000 500 =
      (ExResult.mk 1 ("up") (some ("Left arm curl detected."))
         (some [(("L" : String), AngleEntry.mk (calculate_angle a2 e2 w2) e2)]),
       ExState.mk 1 ("down") (t1 + 600) 0 ("up") ("down") t1 0 ("bicepCurl") none none none) := by
    rw [process_bicep_curl_leftFrame]
    dsimp only
    rw [bicep_arm_step_flex_hold _ (by rw [h30]; norm_num) (by rw [h30]; norm_num)
        t1 (t1 + 600) 500 (by omega)]
    dsimp only
    rw [bicep_finish_left_rep _ _ _ _ hcd]
  rw [hp2]
  dsimp only
  have hp3 : process_bicep_curl (mkLeftFrame a2 e2 w2)
      (ExState.mk 1 ("down") (t1 + 600) 0 ("up") ("down") t1 0 ("bicepCurl") none none none)
      (t1 + 800) 1000 500 =
      (ExResult.mk 1 ("down") none
         (some [(("L" : String), AngleEntry.mk (calculate_angle a2 e2 w2) e2)]),
       ExState.mk 1 ("down") (t1 + 600) 0 ("up") ("down") t1 0 ("bicepCurl") none none none) := by
    rw [process_bicep_curl_leftFrame]
    dsimp only
    rw [bicep_arm_step_flex_up _ (by rw [h30]; norm_num) t1 (t1 + 800) 500]
    dsimp only
    rw [bicep_finish_false]
  rw [hp3]
  exact ⟨rfl, rfl, rfl, rfl⟩

theorem claim_C7_witness :
    (process_bicep_curl
        (mkLeftFrame ⟨1, 0⟩ ⟨0, 0⟩
          ⟨Real.cos (17 * Real.pi / 18), Real.sin (17 * Real.pi / 18)⟩)
        (freshState ("bicepCurl")) 100000 1000 500).1.repCounter = 0 ∧
    (process_bicep_curl
        (mkLeftFrame ⟨1, 0⟩ ⟨0, 0⟩ ⟨Real.cos (Real.pi / 6), Real.sin (Real.pi / 6)⟩)
        (process_bicep_curl
          (mkLeftFrame ⟨1, 0⟩ ⟨0, 0⟩
            ⟨Real.cos (17 * Real.pi / 18), Real.sin (17 * Real.pi / 18)⟩)
          (freshState ("bicepCurl")) 100000 1000 500).2
        (100000 + 600) 1000 500).1.repCounter = 1 ∧
    (process_bicep_curl
        (mkLeftFrame ⟨1, 0⟩ ⟨0, 0⟩ ⟨Real.cos (Real.pi / 6), Real.sin (Real.pi / 6)⟩)
        (process_bicep_curl
          (mkLeftFrame ⟨1, 0⟩ ⟨0, 0⟩
            ⟨Real.cos (17 * Real.pi / 18), Real.sin (17 * Real.pi / 18)⟩)
          (freshState ("bicepCurl")) 100000 1000 500).2
        (100000 + 600) 1000 500).1.stage = ("up") ∧
    (process_bicep_curl
        (mkLeftFrame ⟨1, 0⟩ ⟨0, 0⟩ ⟨Real.cos (Real.pi / 6), Real.sin (Real.pi / 6)⟩)
        (process_bicep_curl
          (mkLeftFrame ⟨1, 0⟩ ⟨0, 0⟩ ⟨Real.cos (Real.pi / 6), Real.sin (Real.pi / 6)⟩)
          (process_bicep_curl
            (mkLeftFrame ⟨1, 0⟩ ⟨0, 0⟩
              ⟨Real.cos (17 * Real.pi / 18), Real.sin (17 * Real.pi / 18)⟩)
            (freshState ("bicepCurl")) 100000 1000 500).2
          (100000 + 600) 1000 500).2
        (100000 + 800) 1000 500).1.repCounter = 1 :=
  claim_C7 ⟨1, 0⟩ ⟨0, 0⟩ ⟨Real.cos (17 * Real.pi / 18), Real.sin (17 * Real.pi / 18)⟩
    ⟨1, 0⟩ ⟨0, 0⟩ ⟨Real.cos (Real.pi / 6), Real.sin (Real.pi / 6)⟩ 100000
    angle_170 angle_30 (by norm_num)

/-- The stage/hold/debounce outcome of a classifier's detection block. -/
structure Detect where
  feedback : String
  stage : String
  holdStart : ℤ
  lastRepTime : ℤ
  repCounter : ℕ

/-- `o is not None and o > c` for an optional measurement. -/
def oSomeGT (o : Option ℝ) (c : ℝ) : Prop :=
  match o with
  | some v => v > c
  | none => False

noncomputable instance (o : Option ℝ) (c : ℝ) : Decidable (oSomeGT o c) :=
  match o with
  | some v => inferInstanceAs (Decidable (v > c))
  | none => inferInstanceAs (Decidable False)

/-- `o is not None and o < c` for an optional measurement. -/
def oSomeLT (o : Option ℝ) (c : ℝ) : Prop :=
  match o with
  | some v => v < c
  | none => False

noncomputable instance (o : Option ℝ) (c : ℝ) : Decidable (oSomeLT o c) :=
  match o with
  | some v => inferInstanceAs (Decidable (v < c))
  | none => inferInstanceAs (Decidable False)

/-- Counter/debounce contract of a detection block. -/
def DetectOk (d : Detect) (last0 : ℤ) (rep0 : ℕ) (t cd : ℤ) : Prop :=
  (d.repCounter = rep0 ∧ d.lastRepTime = last0) ∨
  (d.repCounter = rep0 + 1 ∧ d.lastRepTime = t ∧ t - last0 > cd)

/-- Feedback rewrites after the squat stage machine (app.py 403-412). -/
noncomputable def squat_post (avg stance : Option ℝ) (fb : String) (stg : String) (hs lr : ℤ)
    (rc : ℕ) : Detect :=
  let fb3 := if stg = ("up") ∧ oSomeGT avg 130 ∧ oSomeLT avg 150 then
               ("Begin squat - bend knees more")
             else if stg = ("down") ∧ oSomeGT avg 140 then
               ("Return to standing position fully")
             else fb
  let fb4 := if oSomeLT stance 0.05 then ("Wider stance recommended for stability") else fb3
  ⟨fb4, stg, hs, lr, rc⟩

lemma squat_post_repCounter (avg stance : Option ℝ) (fb stg : String) (hs lr : ℤ)
    (rc : ℕ) : (squat_post avg stance fb stg hs lr rc).repCounter = rc := rfl

lemma squat_post_lastRepTime (avg stance : Option ℝ) (fb stg : String) (hs lr : ℤ)
    (rc : ℕ) : (squat_post avg stance fb stg hs lr rc).lastRepTime = lr := rfl

/-- The squat stage machine (app.py 362-412). -/
noncomputable def squat_detect (avg rel stance : Option ℝ) (stage0 : String) (hold0 last0 : ℤ)
    (rep0 : ℕ) (t cd hold : ℤ) : Detect :=
  let standing := oSomeGT avg 150 ∧ stage0 ≠ ("up")
  let stage1 := if standing then ("up") else stage0
  let hold1 := if standing then t else hold0
  let fb1 := if standing then ("Standing position - ready to squat") else ("")
  let confirmed : Bool := match rel with
    | some r => decide (r > 0.1)
    | none => true
  let fbA := match rel with
    | some r => if r > 0.1 then ("Good squat depth!") else fb1
    | none => fb1
  if oSomeLT avg 130 then
    if confirmed ∧ stage1 = ("up") then
      if t - hold1 > hold then
        if t - last0 > cd then
          squat_post avg stance ("Rep complete! Great squat.") ("down") hold1 t (rep0 + 1)
        else squat_post avg stance fbA stage1 hold1 last0 rep0
      else squat_post avg stance ("Hold squat position") stage1 hold1 last0 rep0
    else if confirmed ∧ stage1 = ("down") then
      squat_post avg stance ("Return to standing position") stage1 hold1 last0 rep0
    else squat_post avg stance fbA stage1 hold1 last0 rep0
  else squat_post avg stance fb1 stage1 hold1 last0 rep0

lemma squat_detect_ok (avg rel stance : Option ℝ) (stage0 : String) (hold0 last0 : ℤ)
    (rep0 : ℕ) (t cd hold : ℤ) :
    DetectOk (squat_detect avg rel stance stage0 hold0 last0 rep0 t cd hold) last0 rep0 t cd := by
  unfold squat_detect DetectOk
  dsimp only
  split_ifs <;>
    simp_all [squat_post_repCounter, squat_post_lastRepTime]

/-- Detection and result assembly shared by the squat paths (app.py 362-424). -/
noncomputable def squat_finish (avg rel stance : Option ℝ) (angles : Angles) (s1 : ExState)
    (t cd hold : ℤ) : ExResult × ExState :=
  let d := squat_detect avg rel stance s1.stage s1.holdStart s1.lastRepTime s1.repCounter t cd hold
  let s2 := {s1 with stage := d.stage, holdStart := d.holdStart,
                     lastRepTime := d.lastRepTime, repCounter := d.repCounter}
  ({repCounter := s2.repCounter, stage := s2.stage, feedback := some d.feedback,
    angles := some angles}, s2)

lemma squat_finish_ok (avg rel stance : Option ℝ) (angles : Angles) (s1 : ExState)
    (t cd hold : ℤ) :
    StepOk s1 (squat_finish avg rel stance angles s1 t cd hold).2 t cd ∧
    (squat_finish avg rel stance angles s1 t cd hold).1.repCounter =
      (squat_finish avg rel stance angles s1 t cd hold).2.repCounter := by
  unfold squat_finish
  dsimp only
  refine ⟨?_, rfl⟩
  rcases squat_detect_ok avg rel stance s1.stage s1.holdStart s1.lastRepTime s1.repCounter
      t cd hold with ⟨h1, h2⟩ | ⟨h1, h2, h3⟩
  · exact Or.inl ⟨h1, h2⟩
  · exact Or.inr ⟨h1, h2, h3⟩

/-- Squat measurements (app.py 288-360) and detection (362-424). -/
noncomputable def squat_rest (lhip lknee lank rhip rknee rank lsh rsh : Landmark)
    (s1 : ExState) (rel : Option ℝ) (angles0 : Angles) (t cd hold : ℤ) :
    ExResult × ExState :=
  let anglesT : Angles :=
    if hasXY lsh ∧ hasXY rsh ∧ hasXY lhip ∧ hasXY rhip then
      [(("TorsoLen" : String),
        AngleEntry.mk (|((pt lhip).y + (pt rhip).y) / 2 - ((pt lsh).y + (pt rsh).y) / 2| * 100)
          ⟨((pt lsh).x + (pt rsh).x) / 2,
           (((pt lsh).y + (pt rsh).y) / 2 + ((pt lhip).y + (pt rhip).y) / 2) / 2⟩)]
    else []
  let lka : Option ℝ :=
    if hasXY lhip ∧ hasXY lknee ∧ hasXY lank then
      some (calculate_angle (pt lhip) (pt lknee) (pt lank))
    else none
  let anglesL : Angles := match lka with
    | some v => [(("L" : String), AngleEntry.mk v (pt lknee))]
    | none => []
  let rka : Option ℝ :=
    if hasXY rhip ∧ hasXY rknee ∧ hasXY rank then
      some (calculate_angle (pt rhip) (pt rknee) (pt rank))
    else none
  let anglesR : Angles := match rka with
    | some v => [(("R" : String), AngleEntry.mk v (pt rknee))]
    | none => []
  let avg : Option ℝ := match lka, rka with
    | some a, some b => some ((a + b) / 2)
    | some a, none => some a
    | none, some b => some b
    | none, none => none
  let anglesAvg : Angles := match lka, rka with
    | some a, some b =>
        [(("Avg" : String), AngleEntry.mk ((a + b) / 2)
           ⟨((pt lknee).x + (pt rknee).x) / 2, ((pt lknee).y + (pt rknee).y) / 2⟩)]
    | _, _ => []
  let stance : Option ℝ :=
    if hasXY lhip ∧ hasXY lank ∧ hasXY rhip ∧ hasXY rank then
      some (|((pt lhip).x + (pt rhip).x) / 2 - ((pt lank).x + (pt rank).x) / 2|)
    else none
  let anglesS : Angles := match stance with
    | some d =>
        [(("StanceWidth" : String), AngleEntry.mk (d * 100)
           ⟨(((pt lhip).x + (pt rhip).x) / 2 + ((pt lank).x + (pt rank).x) / 2) / 2,
            (((pt lank).y + (pt rank).y) / 2 + ((pt lank).y + (pt rank).y) / 2) / 2⟩)]
    | none => []
  squat_finish avg rel stance (angles0 ++ anglesT ++ anglesL ++ anglesR ++ anglesAvg ++ anglesS)
    s1 t cd hold

lemma squat_rest_ok (lhip lknee lank rhip rknee rank lsh rsh : Landmark) (s1 : ExState)
    (rel : Option ℝ) (angles0 : Angles) (t cd hold : ℤ) :
    StepOk s1 (squat_rest lhip lknee lank rhip rknee rank lsh rsh s1 rel angles0 t cd hold).2 t cd ∧
    (squat_rest lhip lknee lank rhip rknee rank lsh rsh s1 rel angles0 t cd hold).1.repCounter =
      (squat_rest lhip lknee lank rhip rknee rank lsh rsh s1 rel angles0 t cd hold).2.repCounter := by
  unfold squat_rest
  exact squat_finish_ok _ _ _ _ s1 t cd hold

/-- Body of `process_squat` after landmark extraction (app.py 256-424):
    initial-hip-height memoisation, relative hip height (whose division raises
    ZeroDivisionError when the stored initial height is 0), measurements and
    detection. -/
noncomputable def squat_core (lhip lknee lank rhip rknee rank lsh rsh : Landmark)
    (s : ExState) (t cd hold : ℤ) : Except (String × ExState) (ExResult × ExState) :=
  let hipsValid := hasXY lhip ∧ hasXY rhip
  let s1 := if s.initial_hip_height = none ∧ hipsValid then
              {s with initial_hip_height := some (((pt lhip).y + (pt rhip).y) / 2)}
            else s
  if hipsValid ∧ s1.initial_hip_height.isSome then
    let ih := s1.initial_hip_height.getD 0
    if ih = 0 then .error (divMsg, s1)
    else
      let cur := ((pt lhip).y + (pt rhip).y) / 2
      let rel := (cur - ih) / ih
      .ok (squat_rest lhip lknee lank rhip rknee rank lsh rsh s1 (some rel)
            [(("HipDrop" : String), AngleEntry.mk (rel * 100)
               ⟨((pt lhip).x + (pt rhip).x) / 2, cur⟩)] t cd hold)
  else .ok (squat_rest lhip lknee lank rhip rknee rank lsh rsh s1 none [] t cd hold)

/-- The positional landmark accesses of the squat classifier (app.py 245-254). -/
def squat_lms (lms : List Landmark) :
    Option (Landmark × Landmark × Landmark × Landmark × Landmark × Landmark ×
            Landmark × Landmark) :=
  match lms[23]?, lms[25]?, lms[27]?, lms[24]?, lms[26]?, lms[28]?, lms[11]?, lms[12]? with
  | some a, some b, some c, some d, some e, some f, some g, some h =>
      some (a, b, c, d, e, f, g, h)
  | _, _, _, _, _, _, _, _ => none

noncomputable def squat_body (lms : List Landmark) (s : ExState) (t cd hold : ℤ) :
    Except (String × ExState) (ExResult × ExState) :=
  match squat_lms lms with
  | some (lhip, lknee, lank, rhip, rknee, rank, lsh, rsh) =>
      squat_core lhip lknee lank rhip rknee rank lsh rsh s t cd hold
  | none => .error (indexMsg, s)

/-- `process_squat` (app.py 241-432). -/
noncomputable def process_squat (lms : List Landmark) (s : ExState) (t cd hold : ℤ) :
    ExResult × ExState := handle (squat_body lms s t cd hold)

lemma squat_core_ok (lhip lknee lank rhip rknee rank lsh rsh : Landmark) (s : ExState)
    (t cd hold : ℤ) :
    StepOk s (handle (squat_core lhip lknee lank rhip rknee rank lsh rsh s t cd hold)).2 t cd ∧
    (handle (squat_core lhip lknee lank rhip rknee rank lsh rsh s t cd hold)).1.repCounter =
      (handle (squat_core lhip lknee lank rhip rknee rank lsh rsh s t cd hold)).2.repCounter := by
  unfold squat_core
  dsimp only
  by_cases hinit : s.initial_hip_height = none ∧ (hasXY lhip ∧ hasXY rhip)
  · simp only [if_pos hinit]
    split
    · split
      · exact ⟨Or.inl ⟨rfl, rfl⟩, rfl⟩
      · exact squat_rest_ok lhip lknee lank rhip rknee rank lsh rsh _ _ _ t cd hold
    · exact squat_rest_ok lhip lknee lank rhip rknee rank lsh rsh _ _ _ t cd hold
  · simp only [if_neg hinit]
    split
    · split
      · exact ⟨Or.inl ⟨rfl, rfl⟩, rfl⟩
      · exact squat_rest_ok lhip lknee lank rhip rknee rank lsh rsh _ _ _ t cd hold
    · exact squat_rest_ok lhip lknee lank rhip rknee rank lsh rsh _ _ _ t cd hold

lemma process_squat_ok (lms : List Landmark) (s : ExState) (t cd hold : ℤ) :
    StepOk s (process_squat lms s t cd hold).2 t cd ∧
    (process_squat lms s t cd hold).1.repCounter =
      (process_squat lms s t cd hold).2.repCounter := by
  unfold process_squat squat_body
  rcases h : squat_lms lms with _ | ⟨lhip, lknee, lank, rhip, rknee, rank, lsh, rsh⟩
  · exact ⟨Or.inl ⟨rfl, rfl⟩, rfl⟩
  · exact squat_core_ok lhip lknee lank rhip rknee rank lsh rsh s t cd hold

/-- Shared tail of a classifier: write the detection outcome into the session
    state and build the result record. -/
noncomputable def apply_detect (d : Detect) (s1 : ExState) (angles : Angles) :
    ExResult × ExState :=
  let s2 := {s1 with stage := d.stage, holdStart := d.holdStart,
                     lastRepTime := d.lastRepTime, repCounter := d.repCounter}
  ({repCounter := s2.repCounter, stage := s2.stage, feedback := some d.feedback,
    angles := some angles}, s2)

lemma apply_detect_ok (d : Detect) (s1 : ExState) (angles : Angles) (t cd : ℤ)
    (h : DetectOk d s1.lastRepTime s1.repCounter t cd) :
    StepOk s1 (apply_detect d s1 angles).2 t cd ∧
    (apply_detect d s1 angles).1.repCounter = (apply_detect d s1 angles).2.repCounter := by
  unfold apply_detect
  dsimp only
  exact ⟨h, rfl⟩

/-- The vertical shoulder-hip alignment angle of the pushup classifier
    (app.py 531-535), computed at the body midline from a synthetic point
    0.1 above the shoulder midpoint. -/
noncomputable def pushup_sh_angle (lshp rshp lhipp rhipp : Pt) : ℝ :=
  calculate_angle ⟨(lshp.x + rshp.x) / 2, (lshp.y + rshp.y) / 2 - 0.1⟩
    ⟨(lshp.x + rshp.x) / 2, (lshp.y + rshp.y) / 2⟩
    ⟨(lhipp.x + rhipp.x) / 2, (lhipp.y + rhipp.y) / 2⟩

/-- The hip-ankle alignment angle of the pushup classifier (app.py 537-541);
    note the first point mixes the shoulder midline x with the hip y, as in
    the source. -/
noncomputable def pushup_ha_angle (lshp rshp lhipp rhipp lankp rankp : Pt) : ℝ :=
  calculate_angle ⟨(lshp.x + rshp.x) / 2, (lhipp.y + rhipp.y) / 2⟩
    ⟨(lhipp.x + rhipp.x) / 2, (lhipp.y + rhipp.y) / 2⟩
    ⟨(lankp.x + rankp.x) / 2, (lankp.y + rankp.y) / 2⟩

/-- The 0-100 body alignment score (app.py 543-547). -/
noncomputable def pushup_align_score (lshp rshp lhipp rhipp lankp rankp : Pt) : ℝ :=
  (max 0 (min 100 ((pushup_sh_angle lshp rshp lhipp rhipp / 180) * 100)) +
   max 0 (min 100 ((pushup_ha_angle lshp rshp lhipp rhipp lankp rankp / 180) * 100))) / 2

/-- The pushup stage machine (app.py 619-652). -/
noncomputable def pushup_detect (isPlank : Bool) (avg : Option ℝ) (score : ℝ)
    (stage0 : String) (hold0 last0 : ℤ) (rep0 : ℕ) (t cd hold : ℤ) : Detect :=
  if isPlank ∧ avg.isSome then
    let upcond := oSomeGT avg 150 ∧ stage0 ≠ ("up")
    let stage1 := if upcond then ("up") else stage0
    let hold1 := if upcond then t else hold0
    let fb1 := if upcond then ("Up position - good plank!") else ("")
    if oSomeLT avg 110 ∧ stage1 = ("up") then
      if t - hold1 > hold then
        if t - last0 > cd then
          ⟨("Rep complete! Good push-up depth."), ("down"), hold1, t, rep0 + 1⟩
        else ⟨("Down position - good form!"), stage1, hold1, last0, rep0⟩
      else ⟨("Down position - hold briefly"), stage1, hold1, last0, rep0⟩
    else ⟨fb1, stage1, hold1, last0, rep0⟩
  else
    let fb := if avg.isSome then
                (if score < 70 then ("Keep your body straight for proper push-ups")
                 else ("Get into push-up position with hands under shoulders"))
              else ("Move to ensure arms are visible")
    ⟨fb, stage0, hold0, last0, rep0⟩

lemma pushup_detect_ok (isPlank : Bool) (avg : Option ℝ) (score : ℝ) (stage0 : String)
    (hold0 last0 : ℤ) (rep0 : ℕ) (t cd hold : ℤ) :
    DetectOk (pushup_detect isPlank avg score stage0 hold0 last0 rep0 t cd hold)
      last0 rep0 t cd := by
  unfold pushup_detect DetectOk
  dsimp only
  split_ifs <;> simp_all

/-- Body of `process_pushup` after landmark extraction (app.py 454-662). -/
noncomputable def pushup_core
    (lsh lel lwr rsh rel rwr nose lhip rhip lknee rknee lank rank : Landmark)
    (s : ExState) (t cd hold : ℤ) : ExResult × ExState :=
  let smy := ((pt lsh).y + (pt rsh).y) / 2
  let hmy := ((pt lhip).y + (pt rhip).y) / 2
  let s1 := if s.reference_height = none ∧ (hasXY lsh ∧ hasXY rsh) then
              (if hasXY lhip ∧ hasXY rhip then
                 {s with reference_height := some smy, torso_length := some (|smy - hmy|)}
               else {s with reference_height := some smy})
            else s
  let lea : Option ℝ := if hasXY lsh ∧ hasXY lel ∧ hasXY lwr then
      some (calculate_angle (pt lsh) (pt lel) (pt lwr)) else none
  let anglesL : Angles := match lea with
    | some v => [(("L" : String), AngleEntry.mk v (pt lel))]
    | none => []
  let rea : Option ℝ := if hasXY rsh ∧ hasXY rel ∧ hasXY rwr then
      some (calculate_angle (pt rsh) (pt rel) (pt rwr)) else none
  let anglesR : Angles := match rea with
    | some v => [(("R" : String), AngleEntry.mk v (pt rel))]
    | none => []
  let avg : Option ℝ := match lea, rea with
    | some a, some b => some ((a + b) / 2)
    | some a, none => some a
    | none, some b => some b
    | none, none => none
  let anglesAvg : Angles := match lea, rea with
    | some a, some b => [(("Avg" : String), AngleEntry.mk ((a + b) / 2)
        ⟨((pt lel).x + (pt rel).x) / 2, ((pt lel).y + (pt rel).y) / 2⟩)]
    | _, _ => []
  let alignValid := hasXY lsh ∧ hasXY rsh ∧ hasXY lhip ∧ hasXY rhip ∧
                    hasXY lank ∧ hasXY rank
  let score := if alignValid then
      pushup_align_score (pt lsh) (pt rsh) (pt lhip) (pt rhip) (pt lank) (pt rank)
    else 0
  let anglesAlign : Angles := if alignValid then
      [(("Align" : String), AngleEntry.mk score ⟨((pt lhip).x + (pt rhip).x) / 2, hmy⟩),
       (("S-H-Angle" : String),
        AngleEntry.mk (pushup_sh_angle (pt lsh) (pt rsh) (pt lhip) (pt rhip))
          ⟨(((pt lsh).x + (pt rsh).x) / 2 + ((pt lhip).x + (pt rhip).x) / 2) / 2,
           (smy + hmy) / 2 - 0.05⟩),
       (("H-A-Angle" : String),
        AngleEntry.mk (pushup_ha_angle (pt lsh) (pt rsh) (pt lhip) (pt rhip) (pt lank) (pt rank))
          ⟨(((pt lhip).x + (pt rhip).x) / 2 + ((pt lank).x + (pt rank).x) / 2) / 2,
           (hmy + ((pt lank).y + (pt rank).y) / 2) / 2 - 0.05⟩)]
    else []
  let anglesSD : Angles := if s1.reference_height.isSome ∧ (hasXY lsh ∧ hasXY rsh) then
      [(("ShoulderDrop" : String),
        AngleEntry.mk ((smy - s1.reference_height.getD 0) * 100)
          ⟨((pt lsh).x + (pt rsh).x) / 2, smy⟩)]
    else []
  let wmy := ((pt lwr).y + (pt rwr).y) / 2
  let plankData : Bool × Angles :=
    if score > 70 ∧ hasXY lwr ∧ hasXY rwr then
      (decide (|wmy - smy| < 0.2),
       [(("W-S-Diff" : String), AngleEntry.mk (|wmy - smy| * 100)
          ⟨((pt lwr).x + (pt rwr).x) / 2, (wmy + smy) / 2⟩)])
    else (false, [])
  let d := pushup_detect plankData.1 avg score s1.stage s1.holdStart s1.lastRepTime
             s1.repCounter t cd hold
  apply_detect d s1 (anglesL ++ anglesR ++ anglesAvg ++ anglesAlign ++ anglesSD ++ plankData.2)

/-- The positional landmark accesses of the pushup classifier (app.py 438-452). -/
def pushup_lms (lms : List Landmark) :
    Option (Landmark × Landmark × Landmark × Landmark × Landmark × Landmark ×
            Landmark × Landmark × Landmark × Landmark × Landmark × Landmark × Landmark) :=
  match lms[11]?, lms[13]?, lms[15]?, lms[12]?, lms[14]?, lms[16]?, lms[0]?,
        lms[23]?, lms[24]?, lms[25]?, lms[26]?, lms[27]?, lms[28]? with
  | some a, some b, some c, some d, some e, some f, some g, some h, some i,
    some j, some k, some l, some m => some (a, b, c, d, e, f, g, h, i, j, k, l, m)
  | _, _, _, _, _, _, _, _, _, _, _, _, _ => none

noncomputable def pushup_body (lms : List Landmark) (s : ExState) (t cd hold : ℤ) :
    Except (String × ExState) (ExResult × ExState) :=
  match pushup_lms lms with
  | some (lsh, lel, lwr, rsh, rel, rwr, nose, lhip, rhip, lknee, rknee, lank, rank) =>
      .ok (pushup_core lsh lel lwr rsh rel rwr nose lhip rhip lknee rknee lank rank s t cd hold)
  | none => .error (indexMsg, s)

/-- `process_pushup` (app.py 434-670). -/
noncomputable def process_pushup (lms : List Landmark) (s : ExState) (t cd hold : ℤ) :
    ExResult × ExState := handle (pushup_body lms s t cd hold)

lemma pushup_core_ok
    (lsh lel lwr rsh rel rwr nose lhip rhip lknee rknee lank rank : Landmark)
    (s : ExState) (t cd hold : ℤ) :
    StepOk s (pushup_core lsh lel lwr rsh rel rwr nose lhip rhip lknee rknee lank rank
        s t cd hold).2 t cd ∧
    (pushup_core lsh lel lwr rsh rel rwr nose lhip rhip lknee rknee lank rank
        s t cd hold).1.repCounter =
      (pushup_core lsh lel lwr rsh rel rwr nose lhip rhip lknee rknee lank rank
        s t cd hold).2.repCounter := by
  unfold pushup_core
  dsimp only
  by_cases h1 : s.reference_height = none ∧ (hasXY lsh ∧ hasXY rsh)
  · simp only [if_pos h1]
    by_cases h2 : hasXY lhip ∧ hasXY rhip
    · simp only [if_pos h2]
      exact apply_detect_ok _ _ _ t cd (pushup_detect_ok _ _ _ _ _ _ _ t cd hold)
    · simp only [if_neg h2]
      exact apply_detect_ok _ _ _ t cd (pushup_detect_ok _ _ _ _ _ _ _ t cd hold)
  · simp only [if_neg h1]
    exact apply_detect_ok _ _ _ t cd (pushup_detect_ok _ _ _ _ _ _ _ t cd hold)

lemma process_pushup_ok (lms : List Landmark) (s : ExState) (t cd hold : ℤ) :
    StepOk s (process_pushup lms s t cd hold).2 t cd ∧
    (process_pushup lms s t cd hold).1.repCounter =
      (process_pushup lms s t cd hold).2.repCounter := by
  unfold process_pushup pushup_body
  rcases h : pushup_lms lms with _ |
    ⟨lsh, lel, lwr, rsh, rel, rwr, nose, lhip, rhip, lknee, rknee, lank, rank⟩
  · exact ⟨Or.inl ⟨rfl, rfl⟩, rfl⟩
  · exact pushup_core_ok lsh lel lwr rsh rel rwr nose lhip rhip lknee rknee lank rank s t cd hold

/-- The shoulder-press stage machine and feedback rewrites (app.py 756-781). -/
noncomputable def press_detect (avg : Option ℝ) (lAbove rAbove : Bool)
    (stage0 : String) (hold0 last0 : ℤ) (rep0 : ℕ) (t cd hold : ℤ) : Detect :=
  if avg.isSome then
    let bothBelow := (!lAbove) && (!rAbove)
    let bothAbove := lAbove && rAbove
    let oneAbove := lAbove || rAbove
    let downcond := oSomeLT avg 100 ∧ bothBelow
    let stage1 := if downcond then ("down") else stage0
    let hold1 := if downcond then t else hold0
    let fb1 := if downcond then ("Ready position - good start") else ("")
    let p2 : String × String × ℤ × ℕ :=
      if oSomeGT avg 140 ∧ (bothAbove ∨ (oneAbove ∧ oSomeGT avg 150)) then
        if stage1 = ("down") ∧ t - hold1 > hold ∧ t - last0 > cd then
          (("Rep complete! Good press."), ("up"), t, rep0 + 1)
        else if stage1 = ("up") then
          (("Press complete - hold position"), stage1, last0, rep0)
        else (fb1, stage1, last0, rep0)
      else (fb1, stage1, last0, rep0)
    let fb3 := if p2.2.1 = ("down") ∧ oSomeLT avg 65 then ("Start with arms higher") else p2.1
    let fb4 := if oneAbove ∧ ¬ (bothAbove = true) ∧ p2.2.1 = ("up") then
                 ("Press both arms evenly")
               else fb3
    ⟨fb4, p2.2.1, hold1, p2.2.2.1, p2.2.2.2⟩
  else ⟨(""), stage0, hold0, last0, rep0⟩

lemma press_detect_ok (avg : Option ℝ) (lAbove rAbove : Bool) (stage0 : String)
    (hold0 last0 : ℤ) (rep0 : ℕ) (t cd hold : ℤ) :
    DetectOk (press_detect avg lAbove rAbove stage0 hold0 last0 rep0 t cd hold)
      last0 rep0 t cd := by
  unfold press_detect DetectOk
  dsimp only
  split_ifs <;> simp_all

/-- Body of `process_shoulder_press` after landmark extraction (app.py 684-787). -/
noncomputable def press_core (lsh lel lwr rsh rel rwr : Landmark) (s : ExState)
    (t cd hold : ℤ) : ExResult × ExState :=
  let leftValid := hasXY lsh ∧ hasXY lel ∧ hasXY lwr
  let rightValid := hasXY rsh ∧ hasXY rel ∧ hasXY rwr
  let lea : Option ℝ := if leftValid then
      some (calculate_angle (pt lwr) (pt lel) (pt lsh)) else none
  let lAbove : Bool := if leftValid then decide ((pt lwr).y < (pt lsh).y) else false
  let anglesL : Angles := if leftValid then
      [(("L" : String), AngleEntry.mk (calculate_angle (pt lwr) (pt lel) (pt lsh)) (pt lel)),
       (("LWristPos" : String),
        AngleEntry.mk (if (pt lwr).y < (pt lsh).y then 1 else 0) (pt lwr))]
    else []
  let rea : Option ℝ := if rightValid then
      some (calculate_angle (pt rwr) (pt rel) (pt rsh)) else none
  let rAbove : Bool := if rightValid then decide ((pt rwr).y < (pt rsh).y) else false
  let anglesR : Angles := if rightValid then
      [(("R" : String), AngleEntry.mk (calculate_angle (pt rwr) (pt rel) (pt rsh)) (pt rel)),
       (("RWristPos" : String),
        AngleEntry.mk (if (pt rwr).y < (pt rsh).y then 1 else 0) (pt rwr))]
    else []
  let avg : Option ℝ := match lea, rea with
    | some a, some b => some ((a + b) / 2)
    | some a, none => some a
    | none, some b => some b
    | none, none => none
  let anglesAvg : Angles := match lea, rea with
    | some a, some b => [(("Avg" : String), AngleEntry.mk ((a + b) / 2)
        ⟨((pt lel).x + (pt rel).x) / 2, ((pt lel).y + (pt rel).y) / 2⟩)]
    | _, _ => []
  let d := press_detect avg lAbove rAbove s.stage s.holdStart s.lastRepTime s.repCounter
             t cd hold
  apply_detect d s (anglesL ++ anglesR ++ anglesAvg)

noncomputable def press_body (lms : List Landmark) (s : ExState) (t cd hold : ℤ) :
    Except (String × ExState) (ExResult × ExState) :=
  match bicep_lms lms with
  | some (lsh, lel, lwr, rsh, rel, rwr) => .ok (press_core lsh lel lwr rsh rel rwr s t cd hold)
  | none => .error (indexMsg, s)

/-- `process_shoulder_press` (app.py 673-795); its landmark extraction uses
    the same six indices as the bicep-curl classifier. -/
noncomputable def process_shoulder_press (lms : List Landmark) (s : ExState) (t cd hold : ℤ) :
    ExResult × ExState := handle (press_body lms s t cd hold)

lemma process_shoulder_press_ok (lms : List Landmark) (s : ExState) (t cd hold : ℤ) :
    StepOk s (process_shoulder_press lms s t cd hold).2 t cd ∧
    (process_shoulder_press lms s t cd hold).1.repCounter =
      (process_shoulder_press lms s t cd hold).2.repCounter := by
  unfold process_shoulder_press press_body
  rcases h : bicep_lms lms with _ | ⟨lsh, lel, lwr, rsh, rel, rwr⟩
  · exact ⟨Or.inl ⟨rfl, rfl⟩, rfl⟩
  · unfold press_core
    dsimp only
    exact apply_detect_ok _ _ _ t cd (press_detect_ok _ _ _ _ _ _ _ t cd hold)

/-- `is_inverted` (app.py 833-836): average ankle height above average wrist
    height in image coordinates. -/
def hs_inverted (lw rw la ra : Pt) : Prop := (la.y + ra.y) / 2 < (lw.y + rw.y) / 2

noncomputable instance (lw rw la ra : Pt) : Decidable (hs_inverted lw rw la ra) := by
  unfold hs_inverted
  infer_instance

/-- Straightness test used for both body and leg angles (app.py 850-855). -/
noncomputable def hs_straight (a b c : Pt) : Prop := |calculate_angle a b c| > 160

noncomputable instance (a b c : Pt) : Decidable (hs_straight a b c) := by
  unfold hs_straight
  infer_instance

/-- `wrist_distance_ratio` (app.py 838-858): wrist separation over shoulder
    separation, 0 when the shoulder separation is not positive. -/
noncomputable def hs_wq (lw rw lsh rsh : Pt) : ℝ :=
  let wd := Real.sqrt ((rw.x - lw.x) ^ 2 + (rw.y - lw.y) ^ 2)
  let sd := Real.sqrt ((rsh.x - lsh.x) ^ 2 + (rsh.y - lsh.y) ^ 2)
  if sd > 0 then wd / sd else 0

/-- `is_hand_placement_good` (app.py 859). -/
noncomputable def hs_hand_good (lw rw lsh rsh : Pt) : Prop :=
  0.8 < hs_wq lw rw lsh rsh ∧ hs_wq lw rw lsh rsh < 1.5

noncomputable instance (lw rw lsh rsh : Pt) : Decidable (hs_hand_good lw rw lsh rsh) := by
  unfold hs_hand_good
  infer_instance

/-- `is_good_form` (app.py 862-865). -/
noncomputable def handstand_good_form (lw rw lsh rsh lh rh lk rk la ra : Pt) : Prop :=
  hs_inverted lw rw la ra ∧
  hs_straight lsh lh lk ∧ hs_straight rsh rh rk ∧
  hs_straight lh lk la ∧ hs_straight rh rk ra ∧
  hs_hand_good lw rw lsh rsh

noncomputable instance (lw rw lsh rsh lh rh lk rk la ra : Pt) :
    Decidable (handstand_good_form lw rw lsh rsh lh rh lk rk la ra) := by
  unfold handstand_good_form
  infer_instance

/-- The handstand hold machine (app.py 922-938). -/
noncomputable def hs_detect (good : Prop) [Decidable good] (fbPre : String)
    (stage0 : String) (hold0 last0 : ℤ) (rep0 : ℕ) (t cd hold : ℤ) : Detect :=
  if good then
    let entering := stage0 ≠ ("inverted")
    let stage1 := if entering then ("inverted") else stage0
    let hold1 := if entering then t else hold0
    let fb1 := if entering then ("Good handstand position - hold it!") else fbPre
    if t - hold1 > hold ∧ stage1 = ("inverted") then
      if t - last0 > cd then
        ⟨("Handstand held! Great job!"), stage1, hold1, t, rep0 + 1⟩
      else ⟨fb1, stage1, hold1, last0, rep0⟩
    else ⟨fb1, stage1, hold1, last0, rep0⟩
  else
    ⟨fbPre, if stage0 = ("inverted") then ("normal") else stage0, hold0, last0, rep0⟩

lemma hs_detect_ok (good : Prop) [Decidable good] (fbPre stage0 : String)
    (hold0 last0 : ℤ) (rep0 : ℕ) (t cd hold : ℤ) :
    DetectOk (hs_detect good fbPre stage0 hold0 last0 rep0 t cd hold) last0 rep0 t cd := by
  unfold hs_detect DetectOk
  dsimp only
  split_ifs <;> simp_all

/-- The required-landmark gate of the handstand classifier (app.py 813-818). -/
def handstand_required (lw rw lsh rsh lh rh lk rk la ra : Landmark) : Prop :=
  hasXY lw ∧ hasXY rw ∧ hasXY lsh ∧ hasXY rsh ∧ hasXY lh ∧ hasXY rh ∧
  hasXY lk ∧ hasXY rk ∧ hasXY la ∧ hasXY ra

instance (lw rw lsh rsh lh rh lk rk la ra : Landmark) :
    Decidable (handstand_required lw rw lsh rsh lh rh lk rk la ra) := by
  unfold handstand_required
  infer_instance

/-- Body of `process_handstand` after landmark extraction (app.py 813-945). -/
noncomputable def handstand_core (lw rw lsh rsh lh rh lk rk la ra : Landmark)
    (s : ExState) (t cd hold : ℤ) : ExResult × ExState :=
  if handstand_required lw rw lsh rsh lh rh lk rk la ra then
    let lba := calculate_angle (pt lsh) (pt lh) (pt lk)
    let rba := calculate_angle (pt rsh) (pt rh) (pt rk)
    let lla := calculate_angle (pt lh) (pt lk) (pt la)
    let rla := calculate_angle (pt rh) (pt rk) (pt ra)
    let wq := hs_wq (pt lw) (pt rw) (pt lsh) (pt rsh)
    let angles : Angles :=
      [(("LBody" : String), AngleEntry.mk lba (pt lh)),
       (("RBody" : String), AngleEntry.mk rba (pt rh)),
       (("LLeg" : String), AngleEntry.mk lla (pt lk)),
       (("RLeg" : String), AngleEntry.mk rla (pt rk)),
       (("WristRatio" : String), AngleEntry.mk wq
          ⟨((pt lw).x + (pt rw).x) / 2, ((pt lw).y + (pt rw).y) / 2⟩)]
    let fbPre :=
      if ¬ hs_inverted (pt lw) (pt rw) (pt la) (pt ra) then ("Get into inverted position")
      else if ¬ (hs_straight (pt lsh) (pt lh) (pt lk) ∧ hs_straight (pt rsh) (pt rh) (pt rk)) then
        ("Keep your body straight")
      else if ¬ (hs_straight (pt lh) (pt lk) (pt la) ∧ hs_straight (pt rh) (pt rk) (pt ra)) then
        ("Straighten your legs")
      else if ¬ hs_hand_good (pt lw) (pt rw) (pt lsh) (pt rsh) then
        (if wq < 0.8 then ("Place hands wider apart") else ("Place hands closer together"))
      else if handstand_good_form (pt lw) (pt rw) (pt lsh) (pt rsh) (pt lh) (pt rh)
                (pt lk) (pt rk) (pt la) (pt ra) then
        ("Great handstand form!")
      else ("")
    let d := hs_detect (handstand_good_form (pt lw) (pt rw) (pt lsh) (pt rsh) (pt lh) (pt rh)
               (pt lk) (pt rk) (pt la) (pt ra)) fbPre s.stage s.holdStart s.lastRepTime
               s.repCounter t cd hold
    apply_detect d s angles
  else
    ({repCounter := s.repCounter, stage := s.stage,
      feedback := some ("Move to ensure full body is visible"), angles := none}, s)

/-- The positional landmark accesses of the handstand classifier (app.py 801-811). -/
def handstand_lms (lms : List Landmark) :
    Option (Landmark × Landmark × Landmark × Landmark × Landmark × Landmark ×
            Landmark × Landmark × Landmark × Landmark) :=
  match lms[15]?, lms[16]?, lms[11]?, lms[12]?, lms[23]?, lms[24]?, lms[25]?,
        lms[26]?, lms[27]?, lms[28]? with
  | some a, some b, some c, some d, some e, some f, some g, some h, some i, some j =>
      some (a, b, c, d, e, f, g, h, i, j)
  | _, _, _, _, _, _, _, _, _, _ => none

noncomputable def handstand_body (lms : List Landmark) (s : ExState) (t cd hold : ℤ) :
    Except (String × ExState) (ExResult × ExState) :=
  match handstand_lms lms with
  | some (lw, rw, lsh, rsh, lh, rh, lk, rk, la, ra) =>
      .ok (handstand_core lw rw lsh rsh lh rh lk rk la ra s t cd hold)
  | none => .error (indexMsg, s)

/-- `process_handstand` (app.py 798-953). -/
noncomputable def process_handstand (lms : List Landmark) (s : ExState) (t cd hold : ℤ) :
    ExResult × ExState := handle (handstand_body lms s t cd hold)

lemma process_handstand_ok (lms : List Landmark) (s : ExState) (t cd hold : ℤ) :
    StepOk s (process_handstand lms s t cd hold).2 t cd ∧
    (process_handstand lms s t cd hold).1.repCounter =
      (process_handstand lms s t cd hold).2.repCounter := by
  unfold process_handstand handstand_body
  rcases h : handstand_lms lms with _ | ⟨lw, rw, lsh, rsh, lh, rh, lk, rk, la, ra⟩
  · exact ⟨Or.inl ⟨rfl, rfl⟩, rfl⟩
  · unfold handstand_core
    dsimp only
    split
    · exact apply_detect_ok _ _ _ t cd (hs_detect_ok _ _ _ _ _ _ t cd hold)
    · exact ⟨Or.inl ⟨rfl, rfl⟩, rfl⟩

/-- The pull-up stage machine (app.py 1036-1057). -/
noncomputable def pullup_detect (arm : ℝ) (stage0 : String) (hold0 last0 : ℤ) (rep0 : ℕ)
    (t cd : ℤ) : Detect :=
  let stage1 := if arm < 50 then ("up") else if arm > 150 then ("down") else stage0
  let fb1 := if stage1 = ("up") then ("Up position - good!")
             else if stage1 = ("down") then ("Down position - pull up!") else ("")
  if stage0 = ("up") ∧ stage1 = ("down") ∧ t - last0 > cd then
    ⟨("Rep complete! Good pull-up."), stage1, hold0, t, rep0 + 1⟩
  else ⟨fb1, stage1, hold0, last0, rep0⟩

lemma pullup_detect_ok (arm : ℝ) (stage0 : String) (hold0 last0 : ℤ) (rep0 : ℕ)
    (t cd : ℤ) : DetectOk (pullup_detect arm stage0 hold0 last0 rep0 t cd) last0 rep0 t cd := by
  unfold pullup_detect DetectOk
  dsimp only
  split_ifs <;> simp_all

/-- Body of `process_pull_up` after landmark extraction (app.py 967-1064). -/
noncomputable def pullup_core (lsh lel lwr rsh rel rwr : Landmark) (s : ExState)
    (t cd : ℤ) : ExResult × ExState :=
  let leftValid := hasXY lsh ∧ hasXY lel ∧ hasXY lwr
  let rightValid := hasXY rsh ∧ hasXY rel ∧ hasXY rwr
  if ¬ leftValid ∧ ¬ rightValid then
    ({repCounter := s.repCounter, stage := s.stage,
      feedback := some ("Position not clear - adjust camera"), angles := none}, s)
  else
    let la := calculate_angle (pt lsh) (pt lel) (pt lwr)
    let ra := calculate_angle (pt rsh) (pt rel) (pt rwr)
    let anglesL : Angles := if leftValid then
        [(("L" : String), AngleEntry.mk la (pt lel))] else []
    let anglesR : Angles := if rightValid then
        [(("R" : String), AngleEntry.mk ra (pt rel))] else []
    let arm := if leftValid ∧ rightValid then (la + ra) / 2
               else if leftValid then la else ra
    let anglesAvg : Angles := if leftValid ∧ rightValid then
        [(("Avg" : String), AngleEntry.mk ((la + ra) / 2)
           ⟨((pt lel).x + (pt rel).x) / 2, ((pt lel).y + (pt rel).y) / 2⟩)]
      else []
    let d := pullup_detect arm s.stage s.holdStart s.lastRepTime s.repCounter t cd
    apply_detect d s (anglesL ++ anglesR ++ anglesAvg)

noncomputable def pullup_body (lms : List Landmark) (s : ExState) (t cd : ℤ) :
    Except (String × ExState) (ExResult × ExState) :=
  match bicep_lms lms with
  | some (lsh, lel, lwr, rsh, rel, rwr) => .ok (pullup_core lsh lel lwr rsh rel rwr s t cd)
  | none => .error (indexMsg, s)

/-- `process_pull_up` (app.py 956-1072); its landmark extraction uses the same
    six indices as the bicep-curl classifier, and it takes no hold threshold. -/
noncomputable def process_pull_up (lms : List Landmark) (s : ExState) (t cd : ℤ) :
    ExResult × ExState := handle (pullup_body lms s t cd)

lemma process_pull_up_ok (lms : List Landmark) (s : ExState) (t cd : ℤ) :
    StepOk s (process_pull_up lms s t cd).2 t cd ∧
    (process_pull_up lms s t cd).1.repCounter =
      (process_pull_up lms s t cd).2.repCounter := by
  unfold process_pull_up pullup_body
  rcases h : bicep_lms lms with _ | ⟨lsh, lel, lwr, rsh, rel, rwr⟩
  · exact ⟨Or.inl ⟨rfl, rfl⟩, rfl⟩
  · unfold pullup_core
    dsimp only
    split
    · exact ⟨Or.inl ⟨rfl, rfl⟩, rfl⟩
    · exact apply_detect_ok _ _ _ t cd (pullup_detect_ok _ _ _ _ _ t cd)

/-- The sit-up stage machine (app.py 1138-1154). -/
noncomputable def situp_detect (avg : ℝ) (stage0 : String) (hold0 last0 : ℤ) (rep0 : ℕ)
    (t cd hold : ℤ) : Detect :=
  let downcond := avg > 160
  let stage1 := if downcond then ("down") else stage0
  let hold1 := if downcond then t else hold0
  let fb1 := if downcond then ("Down position - prepare to sit up") else ("")
  if avg < 80 ∧ stage1 = ("down") then
    if t - hold1 > hold ∧ t - last0 > cd then
      ⟨("Rep complete! Good sit-up."), ("up"), hold1, t, rep0 + 1⟩
    else ⟨("Almost there - complete the sit-up"), stage1, hold1, last0, rep0⟩
  else ⟨fb1, stage1, hold1, last0, rep0⟩

lemma situp_detect_ok (avg : ℝ) (stage0 : String) (hold0 last0 : ℤ) (rep0 : ℕ)
    (t cd hold : ℤ) :
    DetectOk (situp_detect avg stage0 hold0 last0 rep0 t cd hold) last0 rep0 t cd := by
  unfold situp_detect DetectOk
  dsimp only
  split_ifs <;> simp_all

/-- The required-landmark gate of the sit-up classifier (app.py 1093-1096). -/
def situp_required (lsh lhip lknee rsh rhip rknee : Landmark) : Prop :=
  hasXY lsh ∧ hasXY lhip ∧ hasXY lknee ∧ hasXY rsh ∧ hasXY rhip ∧ hasXY rknee

instance (lsh lhip lknee rsh rhip rknee : Landmark) :
    Decidable (situp_required lsh lhip lknee rsh rhip rknee) := by
  unfold situp_required
  infer_instance

/-- Body of `process_situp` after landmark extraction (app.py 1086-1168). -/
noncomputable def situp_core (lsh lhip lknee rsh rhip rknee : Landmark) (s : ExState)
    (t cd hold : ℤ) : ExResult × ExState :=
  if situp_required lsh lhip lknee rsh rhip rknee then
    let la := calculate_angle (pt lsh) (pt lhip) (pt lknee)
    let ra := calculate_angle (pt rsh) (pt rhip) (pt rknee)
    let avg := (la + ra) / 2
    let angles : Angles :=
      [(("L" : String), AngleEntry.mk la (pt lhip)),
       (("R" : String), AngleEntry.mk ra (pt rhip)),
       (("Avg" : String), AngleEntry.mk avg
          ⟨((pt lhip).x + (pt rhip).x) / 2, ((pt lhip).y + (pt rhip).y) / 2⟩)]
    let d := situp_detect avg s.stage s.holdStart s.lastRepTime s.repCounter t cd hold
    apply_detect d s angles
  else
    ({repCounter := s.repCounter, stage := s.stage,
      feedback := some ("Position not clear - adjust camera"), angles := some []}, s)

/-- The positional landmark accesses of the sit-up classifier (app.py 1079-1084). -/
def situp_lms (lms : List Landmark) :
    Option (Landmark × Landmark × Landmark × Landmark × Landmark × Landmark) :=
  match lms[11]?, lms[23]?, lms[25]?, lms[12]?, lms[24]?, lms[26]? with
  | some a, some b, some c, some d, some e, some f => some (a, b, c, d, e, f)
  | _, _, _, _, _, _ => none

noncomputable def situp_body (lms : List Landmark) (s : ExState) (t cd hold : ℤ) :
    Except (String × ExState) (ExResult × ExState) :=
  match situp_lms lms with
  | some (lsh, lhip, lknee, rsh, rhip, rknee) =>
      .ok (situp_core lsh lhip lknee rsh rhip rknee s t cd hold)
  | none => .error (indexMsg, s)

/-- `process_situp` (app.py 1075-1176). -/
noncomputable def process_situp (lms : List Landmark) (s : ExState) (t cd hold : ℤ) :
    ExResult × ExState := handle (situp_body lms s t cd hold)

lemma process_situp_ok (lms : List Landmark) (s : ExState) (t cd hold : ℤ) :
    StepOk s (process_situp lms s t cd hold).2 t cd ∧
    (process_situp lms s t cd hold).1.repCounter =
      (process_situp lms s t cd hold).2.repCounter := by
  unfold process_situp situp_body
  rcases h : situp_lms lms with _ | ⟨lsh, lhip, lknee, rsh, rhip, rknee⟩
  · exact ⟨Or.inl ⟨rfl, rfl⟩, rfl⟩
  · unfold situp_core
    dsimp only
    split
    · exact apply_detect_ok _ _ _ t cd (situp_detect_ok _ _ _ _ _ t cd hold)
    · exact ⟨Or.inl ⟨rfl, rfl⟩, rfl⟩

/-- The jumping-jacks stage machine (app.py 1303-1319). -/
noncomputable def jj_detect (isClosed isOpen : Prop) [Decidable isClosed] [Decidable isOpen]
    (stage0 : String) (hold0 last0 : ℤ) (rep0 : ℕ) (t cd hold : ℤ) : Detect :=
  let stage1 := if isClosed then ("closed") else stage0
  let hold1 := if isClosed then t else hold0
  let fb1 := if isClosed then ("Closed position - prepare to jump") else ("")
  let d2 : Detect :=
    if isOpen ∧ stage1 = ("closed") then
      (if t - hold1 > hold ∧ t - last0 > cd then
        ⟨("Rep complete! Good jumping jack."), ("open"), hold1, t, rep0 + 1⟩
      else ⟨("Open position - good form"), stage1, hold1, last0, rep0⟩)
    else ⟨fb1, stage1, hold1, last0, rep0⟩
  if ¬ isOpen ∧ ¬ isClosed then
    {d2 with feedback := ("Transition - continue your movement")}
  else d2

lemma jj_detect_ok (isClosed isOpen : Prop) [Decidable isClosed] [Decidable isOpen]
    (stage0 : String) (hold0 last0 : ℤ) (rep0 : ℕ) (t cd hold : ℤ) :
    DetectOk (jj_detect isClosed isOpen stage0 hold0 last0 rep0 t cd hold) last0 rep0 t cd := by
  unfold jj_detect DetectOk
  dsimp only
  split_ifs <;> simp_all

/-- The required-landmark gate of the jumping-jacks classifier (app.py 1196-1202). -/
def jj_required (lsh rsh lel rel lwr rwr lhip rhip lknee rknee lank rank : Landmark) : Prop :=
  hasXY lsh ∧ hasXY rsh ∧ hasXY lel ∧ hasXY rel ∧ hasXY lwr ∧ hasXY rwr ∧
  hasXY lhip ∧ hasXY rhip ∧ hasXY lknee ∧ hasXY rknee ∧ hasXY lank ∧ hasXY rank

instance (lsh rsh lel rel lwr rwr lhip rhip lknee rknee lank rank : Landmark) :
    Decidable (jj_required lsh rsh lel rel lwr rwr lhip rhip lknee rknee lank rank) := by
  unfold jj_required
  infer_instance

/-- Body of `process_jumping_jacks` after landmark extraction (app.py 1196-1326). -/
noncomputable def jj_core (lsh rsh lel rel lwr rwr lhip rhip lknee rknee lank rank : Landmark)
    (s : ExState) (t cd hold : ℤ) : ExResult × ExState :=
  if jj_required lsh rsh lel rel lwr rwr lhip rhip lknee rknee lank rank then
    let laa := calculate_angle (pt lsh) (pt lel) (pt lwr)
    let raa := calculate_angle (pt rsh) (pt rel) (pt rwr)
    let lsa := calculate_angle (pt lhip) (pt lsh) (pt lel)
    let rsa := calculate_angle (pt rhip) (pt rsh) (pt rel)
    let lla := calculate_angle (pt lhip) (pt lknee) (pt lank)
    let rla := calculate_angle (pt rhip) (pt rknee) (pt rank)
    let lha := calculate_angle (pt lsh) (pt lhip) (pt lknee)
    let rha := calculate_angle (pt rsh) (pt rhip) (pt rknee)
    let angles : Angles :=
      [(("LArm" : String), AngleEntry.mk laa (pt lel)),
       (("RArm" : String), AngleEntry.mk raa (pt rel)),
       (("LShoulder" : String), AngleEntry.mk lsa (pt lsh)),
       (("RShoulder" : String), AngleEntry.mk rsa (pt rsh)),
       (("LLeg" : String), AngleEntry.mk lla (pt lknee)),
       (("RLeg" : String), AngleEntry.mk rla (pt rknee)),
       (("LHip" : String), AngleEntry.mk lha (pt lhip)),
       (("RHip" : String), AngleEntry.mk rha (pt rhip))]
    let isClosed := laa > 150 ∧ raa > 150 ∧ lsa < 50 ∧ rsa < 50 ∧
                    lla > 160 ∧ rla > 160 ∧ lha < 30 ∧ rha < 30
    let isOpen := laa < 120 ∧ raa < 120 ∧ lsa > 160 ∧ rsa > 160 ∧
                  lla < 140 ∧ rla < 140 ∧ lha > 50 ∧ rha > 50
    let d := jj_detect isClosed isOpen s.stage s.holdStart s.lastRepTime s.repCounter t cd hold
    apply_detect d s angles
  else
    ({repCounter := s.repCounter, stage := s.stage,
      feedback := some ("Position not clear - adjust camera"), angles := some []}, s)

/-- The positional landmark accesses of the jumping-jacks classifier
    (app.py 1183-1194). -/
def jj_lms (lms : List Landmark) :
    Option (Landmark × Landmark × Landmark × Landmark × Landmark × Landmark ×
            Landmark × Landmark × Landmark × Landmark × Landmark × Landmark) :=
  match lms[11]?, lms[12]?, lms[13]?, lms[14]?, lms[15]?, lms[16]?, lms[23]?,
        lms[24]?, lms[25]?, lms[26]?, lms[27]?, lms[28]? with
  | some a, some b, some c, some d, some e, some f, some g, some h, some i,
    some j, some k, some l => some (a, b, c, d, e, f, g, h, i, j, k, l)
  | _, _, _, _, _, _, _, _, _, _, _, _ => none

noncomputable def jj_body (lms : List Landmark) (s : ExState) (t cd hold : ℤ) :
    Except (String × ExState) (ExResult × ExState) :=
  match jj_lms lms with
  | some (lsh, rsh, lel, rel, lwr, rwr, lhip, rhip, lknee, rknee, lank, rank) =>
      .ok (jj_core lsh rsh lel rel lwr rwr lhip rhip lknee rknee lank rank s t cd hold)
  | none => .error (indexMsg, s)

/-- `process_jumping_jacks` (app.py 1179-1334). -/
noncomputable def process_jumping_jacks (lms : List Landmark) (s : ExState) (t cd hold : ℤ) :
    ExResult × ExState := handle (jj_body lms s t cd hold)

lemma process_jumping_jacks_ok (lms : List Landmark) (s : ExState) (t cd hold : ℤ) :
    StepOk s (process_jumping_jacks lms s t cd hold).2 t cd ∧
    (process_jumping_jacks lms s t cd hold).1.repCounter =
      (process_jumping_jacks lms s t cd hold).2.repCounter := by
  unfold process_jumping_jacks jj_body
  rcases h : jj_lms lms with _ | ⟨lsh, rsh, lel, rel, lwr, rwr, lhip, rhip, lknee, rknee, lank, rank⟩
  · exact ⟨Or.inl ⟨rfl, rfl⟩, rfl⟩
  · unfold jj_core
    dsimp only
    split
    · exact apply_detect_ok _ _ _ t cd (jj_detect_ok _ _ _ _ _ _ t cd hold)
    · exact ⟨Or.inl ⟨rfl, rfl⟩, rfl⟩

/-- The lunge stage machine and feedback rewrites (app.py 1421-1448). -/
noncomputable def lunge_detect (lla rla front back kneeDiff : ℝ) (stage0 : String)
    (hold0 last0 : ℤ) (rep0 : ℕ) (t cd hold : ℤ) : Detect :=
  let standing := lla > 150 ∧ rla > 150 ∧ kneeDiff < 0.1
  let stage1 := if standing then ("up") else stage0
  let hold1 := if standing then t else hold0
  let fb1 := if standing then ("Standing position - prepare for lunge") else ("")
  let pf := front < 110
  let pb := back > 130
  let pk := kneeDiff > 0.2
  let d2 : Detect :=
    if pf ∧ pb ∧ pk ∧ stage1 = ("up") then
      (if t - hold1 > hold ∧ t - last0 > cd then
        ⟨("Rep complete! Good lunge."), ("down"), hold1, t, rep0 + 1⟩
      else ⟨("Lunge position - hold it"), stage1, hold1, last0, rep0⟩)
    else ⟨fb1, stage1, hold1, last0, rep0⟩
  let fb3 := if d2.stage = ("down") ∧ ¬ pf then ("Bend your front knee more")
             else if d2.stage = ("down") ∧ ¬ pb then ("Keep your back leg straighter")
             else if d2.stage = ("up") ∧ kneeDiff > 0.1 then ("Stand with feet together")
             else d2.feedback
  {d2 with feedback := fb3}

lemma lunge_detect_ok (lla rla front back kneeDiff : ℝ) (stage0 : String)
    (hold0 last0 : ℤ) (rep0 : ℕ) (t cd hold : ℤ) :
    DetectOk (lunge_detect lla rla front back kneeDiff stage0 hold0 last0 rep0 t cd hold)
      last0 rep0 t cd := by
  unfold lunge_detect DetectOk
  dsimp only
  split_ifs <;> simp_all

/-- The required-landmark gate of the lunge classifier (app.py 1348-1352). -/
def lunge_required (lhip lknee lank rhip rknee rank : Landmark) : Prop :=
  hasXY lhip ∧ hasXY lknee ∧ hasXY lank ∧ hasXY rhip ∧ hasXY rknee ∧ hasXY rank

instance (lhip lknee lank rhip rknee rank : Landmark) :
    Decidable (lunge_required lhip lknee lank rhip rknee rank) := by
  unfold lunge_required
  infer_instance

/-- Body of `process_lunge` after landmark extraction (app.py 1348-1455). -/
noncomputable def lunge_core (lhip lknee lank rhip rknee rank : Landmark) (s : ExState)
    (t cd hold : ℤ) : ExResult × ExState :=
  if lunge_required lhip lknee lank rhip rknee rank then
    let lla := calculate_angle (pt lhip) (pt lknee) (pt lank)
    let rla := calculate_angle (pt rhip) (pt rknee) (pt rank)
    let kneeDiff := |(pt lknee).y - (pt rknee).y|
    let front := if (pt lknee).y > (pt rknee).y then rla else lla
    let back := if (pt lknee).y > (pt rknee).y then lla else rla
    let frontKnee := if (pt lknee).y > (pt rknee).y then pt rknee else pt lknee
    let backKnee := if (pt lknee).y > (pt rknee).y then pt lknee else pt rknee
    let angles : Angles :=
      [(("LLeg" : String), AngleEntry.mk lla (pt lknee)),
       (("RLeg" : String), AngleEntry.mk rla (pt rknee)),
       (("Front" : String), AngleEntry.mk front frontKnee),
       (("Back" : String), AngleEntry.mk back backKnee),
       (("KneeDiff" : String), AngleEntry.mk (kneeDiff * 100)
          ⟨((pt lknee).x + (pt rknee).x) / 2, ((pt lknee).y + (pt rknee).y) / 2⟩)]
    let d := lunge_detect lla rla front back kneeDiff s.stage s.holdStart s.lastRepTime
               s.repCounter t cd hold
    apply_detect d s angles
  else
    ({repCounter := s.repCounter, stage := s.stage,
      feedback := some ("Position not clear - adjust camera"), angles := some []}, s)

/-- The positional landmark accesses of the lunge classifier (app.py 1341-1346). -/
def lunge_lms (lms : List Landmark) :
    Option (Landmark × Landmark × Landmark × Landmark × Landmark × Landmark) :=
  match lms[23]?, lms[25]?, lms[27]?, lms[24]?, lms[26]?, lms[28]? with
  | some a, some b, some c, some d, some e, some f => some (a, b, c, d, e, f)
  | _, _, _, _, _, _ => none

noncomputable def lunge_body (lms : List Landmark) (s : ExState) (t cd hold : ℤ) :
    Except (String × ExState) (ExResult × ExState) :=
  match lunge_lms lms with
  | some (lhip, lknee, lank, rhip, rknee, rank) =>
      .ok (lunge_core lhip lknee lank rhip rknee rank s t cd hold)
  | none => .error (indexMsg, s)

/-- `process_lunge` (app.py 1337-1463). -/
noncomputable def process_lunge (lms : List Landmark) (s : ExState) (t cd hold : ℤ) :
    ExResult × ExState := handle (lunge_body lms s t cd hold)

lemma process_lunge_ok (lms : List Landmark) (s : ExState) (t cd hold : ℤ) :
    StepOk s (process_lunge lms s t cd hold).2 t cd ∧
    (process_lunge lms s t cd hold).1.repCounter =
      (process_lunge lms s t cd hold).2.repCounter := by
  unfold process_lunge lunge_body
  rcases h : lunge_lms lms with _ | ⟨lhip, lknee, lank, rhip, rknee, rank⟩
  · exact ⟨Or.inl ⟨rfl, rfl⟩, rfl⟩
  · unfold lunge_core
    dsimp only
    split
    · exact apply_detect_ok _ _ _ t cd (lunge_detect_ok _ _ _ _ _ _ _ _ _ t cd hold)
    · exact ⟨Or.inl ⟨rfl, rfl⟩, rfl⟩

/-- A request to `/process_landmarks` (app.py 37-40), after the JSON defaults
    have been applied. -/
structure Request where
  landmarks : List Landmark
  exerciseType : String
  sessionId : String

/-- The global in-memory session store `exercise_states` (app.py 20). -/
def Store := String → Option ExState

/-- `client_key` (app.py 43). -/
def clientKey (sessionId exerciseType : String) : String :=
  sessionId ++ "_" ++ exerciseType

/-- Lazy state creation (app.py 46-57): the stored state for the key, or a
    fresh state dict for this exercise type. -/
def getOrInit (σ : Store) (key ex : String) : ExState :=
  match σ key with
  | some st => st
  | none => freshState ex

/-- The dispatch chain of `process_landmarks` (app.py 64-89), with the fixed
    `rep_cooldown = 1000` and `hold_threshold = 500` (60-62); the default echo
    result (65-69) answers for exercise types without a branch. -/
noncomputable def dispatch (ex : String) (lms : List Landmark) (cs : ExState) (t : ℤ) :
    ExResult × ExState :=
  let rep_cooldown : ℤ := 1000
  let hold_threshold : ℤ := 500
  if ex = ("bicepCurl") then process_bicep_curl lms cs t rep_cooldown hold_threshold
  else if ex = ("squat") then process_squat lms cs t rep_cooldown hold_threshold
  else if ex = ("pushup") then process_pushup lms cs t rep_cooldown hold_threshold
  else if ex = ("shoulderPress") then process_shoulder_press lms cs t rep_cooldown hold_threshold
  else if ex = ("handstand") then process_handstand lms cs t rep_cooldown hold_threshold
  else if ex = ("pullUp") then process_pull_up lms cs t rep_cooldown
  else if ex = ("situp") then process_situp lms cs t rep_cooldown hold_threshold
  else if ex = ("jumpingJacks") then process_jumping_jacks lms cs t rep_cooldown hold_threshold
  else if ex = ("lunge") then process_lunge lms cs t rep_cooldown hold_threshold
  else ({repCounter := cs.repCounter, stage := cs.stage, feedback := some (""),
         angles := none}, cs)

lemma dispatch_ok (ex : String) (lms : List Landmark) (cs : ExState) (t : ℤ) :
    StepOk cs (dispatch ex lms cs t).2 t 1000 ∧
    (dispatch ex lms cs t).1.repCounter = (dispatch ex lms cs t).2.repCounter := by
  unfold dispatch
  dsimp only
  split_ifs
  · exact process_bicep_curl_ok lms cs t 1000 500
  · exact process_squat_ok lms cs t 1000 500
  · exact process_pushup_ok lms cs t 1000 500
  · exact process_shoulder_press_ok lms cs t 1000 500
  · exact process_handstand_ok lms cs t 1000 500
  · exact process_pull_up_ok lms cs t 1000
  · exact process_situp_ok lms cs t 1000 500
  · exact process_jumping_jacks_ok lms cs t 1000 500
  · exact process_lunge_ok lms cs t 1000 500
  · exact ⟨Or.inl ⟨rfl, rfl⟩, rfl⟩

/-- `process_landmarks` (app.py 33-94) for one request at server time `t`:
    key construction, lazy state creation, dispatch, store write-back.  The
    functional update models the in-place mutation of
    `exercise_states[client_key]`. -/
noncomputable def processLandmarks (σ : Store) (req : Request) (t : ℤ) :
    ExResult × Store :=
  let key := clientKey req.sessionId req.exerciseType
  let cs := getOrInit σ key req.exerciseType
  let p := dispatch req.exerciseType req.landmarks cs t
  (p.1, fun k => if k = key then some p.2 else σ k)

/-- The repCounter stored for a key, 0 when no session exists yet. -/
def cnt (σ : Store) (k : String) : ℕ :=
  match σ k with
  | some st => st.repCounter
  | none => 0

lemma cnt_getOrInit (σ : Store) (key ex : String) :
    cnt σ key = (getOrInit σ key ex).repCounter := by
  unfold cnt getOrInit
  cases σ key <;> rfl

lemma processLandmarks_frame (σ : Store) (req : Request) (t : ℤ) (k : String)
    (h : k ≠ clientKey req.sessionId req.exerciseType) :
    (processLandmarks σ req t).2 k = σ k := by
  unfold processLandmarks
  dsimp only
  rw [if_neg h]

lemma processLandmarks_self (σ : Store) (req : Request) (t : ℤ) :
    (processLandmarks σ req t).1.repCounter =
      cnt (processLandmarks σ req t).2 (clientKey req.sessionId req.exerciseType) ∧
    cnt σ (clientKey req.sessionId req.exerciseType) ≤
      cnt (processLandmarks σ req t).2 (clientKey req.sessionId req.exerciseType) := by
  have hd := dispatch_ok req.exerciseType req.landmarks
    (getOrInit σ (clientKey req.sessionId req.exerciseType) req.exerciseType) t
  unfold processLandmarks
  dsimp only
  have hk : cnt (fun k => if k = clientKey req.sessionId req.exerciseType then
        some (dispatch req.exerciseType req.landmarks
          (getOrInit σ (clientKey req.sessionId req.exerciseType) req.exerciseType) t).2
      else σ k) (clientKey req.sessionId req.exerciseType) =
      (dispatch req.exerciseType req.landmarks
        (getOrInit σ (clientKey req.sessionId req.exerciseType) req.exerciseType) t).2.repCounter := by
    unfold cnt
    dsimp only
    rw [if_pos rfl]
  rw [hk]
  refine ⟨hd.2, ?_⟩
  rw [cnt_getOrInit σ (clientKey req.sessionId req.exerciseType) req.exerciseType]
  rcases hd.1 with ⟨h1, _⟩ | ⟨h1, _, _⟩ <;> omega

/-- The per-call observation for C1: the client key of each request paired
    with the repCounter of the response, over a request sequence with server
    times, threading the store. -/
noncomputable def keyedCounters (σ : Store) : List (Request × ℤ) → List (String × ℕ)
  | [] => []
  | (r, t) :: rest =>
      let p := processLandmarks σ r t
      (clientKey r.sessionId r.exerciseType, p.1.repCounter) :: keyedCounters p.2 rest

lemma keyedCounters_mono (reqs : List (Request × ℤ)) : ∀ (σ : Store) (k : String),
    (∀ c ∈ ((keyedCounters σ reqs).filter (fun p => p.1 == k)).map Prod.snd, cnt σ k ≤ c) ∧
    List.Pairwise (· ≤ ·)
      (((keyedCounters σ reqs).filter (fun p => p.1 == k)).map Prod.snd) := by
  induction reqs with
  | nil =>
      intro σ k
      constructor
      · intro c hc
        simp [keyedCounters] at hc
      · simp [keyedCounters]
  | cons rt rest ih =>
      intro σ k
      obtain ⟨r, t⟩ := rt
      obtain ⟨hres, hmono⟩ := processLandmarks_self σ r t
      simp only [keyedCounters]
      by_cases hk : clientKey r.sessionId r.exerciseType = k
      · rw [List.filter_cons_of_pos (by simpa using hk), List.map_cons]
        obtain ⟨hall, hpw⟩ := ih (processLandmarks σ r t).2 k
        subst hk
        constructor
        · intro c hc
          rcases List.mem_cons.mp hc with hc | hc
          · subst hc
            dsimp only
            omega
          · exact le_trans hmono (by rw [← hres] at hall ⊢; exact le_trans (by omega) (hall c hc))
        · rw [List.pairwise_cons]
          refine ⟨?_, hpw⟩
          intro c hc
          dsimp only
          rw [hres]
          exact hall c hc
      · rw [List.filter_cons_of_neg (by simpa using hk)]
        have hfr : (processLandmarks σ r t).2 k = σ k :=
          processLandmarks_frame σ r t k (fun he => hk he.symm)
        have hcnt : cnt (processLandmarks σ r t).2 k = cnt σ k := by
          unfold cnt
          rw [hfr]
        obtain ⟨hall, hpw⟩ := ih (processLandmarks σ r t).2 k
        rw [hcnt] at hall
        exact ⟨hall, hpw⟩

/-- C1: for every fixed session key and every request sequence fed to
    `process_landmarks`, the repCounter values returned for that key are
    non-decreasing: no classifier, exception path, or dispatcher path ever
    decreases or resets the counter. -/
theorem claim_C1 (σ : Store) (reqs : List (Request × ℤ)) (k : String) :
    List.Pairwise (· ≤ ·)
      (((keyedCounters σ reqs).filter (fun p => p.1 == k)).map Prod.snd) :=
  (keyedCounters_mono reqs σ k).2

/-- C2: for every classifier reachable from the dispatcher (and the default
    path) and every session state, an increment requires the 1000 ms cooldown
    to have elapsed and advances `lastRepTime` to the call time; hence two
    calls whose timestamps differ by less than 1000 ms never both increment
    `repCounter`. -/
theorem claim_C2 (ex : String) (lms1 lms2 : List Landmark) (s : ExState) (t1 t2 : ℤ)
    (hlt : |t2 - t1| < 1000) :
    ((dispatch ex lms1 s t1).2.repCounter ≠ s.repCounter →
      (dispatch ex lms1 s t1).2.repCounter = s.repCounter + 1 ∧
      (dispatch ex lms1 s t1).2.lastRepTime = t1 ∧ t1 - s.lastRepTime > 1000) ∧
    ¬ ((dispatch ex lms1 s t1).2.repCounter ≠ s.repCounter ∧
       (dispatch ex lms2 (dispatch ex lms1 s t1).2 t2).2.repCounter ≠
         (dispatch ex lms1 s t1).2.repCounter) := by
  have h1 := (dispatch_ok ex lms1 s t1).1
  have h2 := (dispatch_ok ex lms2 (dispatch ex lms1 s t1).2 t2).1
  unfold StepOk at h1 h2
  constructor
  · intro hne
    rcases h1 with ⟨ha, _⟩ | hb
    · exact absurd ha hne
    · exact hb
  · rintro ⟨hne1, hne2⟩
    rcases h1 with ⟨ha, _⟩ | ⟨_, hl1, _⟩
    · exact hne1 ha
    · rcases h2 with ⟨hb, _⟩ | ⟨_, _, hgap⟩
      · exact hne2 hb
      · rw [hl1] at hgap
        have := abs_lt.mp hlt
        omega

theorem claim_C2_witness :
    ((dispatch ("situp") [] (freshState ("situp")) 0).2.repCounter ≠
        (freshState ("situp")).repCounter →
      (dispatch ("situp") [] (freshState ("situp")) 0).2.repCounter =
        (freshState ("situp")).repCounter + 1 ∧
      (dispatch ("situp") [] (freshState ("situp")) 0).2.lastRepTime = 0 ∧
      0 - (freshState ("situp")).lastRepTime > 1000) ∧
    ¬ ((dispatch ("situp") [] (freshState ("situp")) 0).2.repCounter ≠
         (freshState ("situp")).repCounter ∧
       (dispatch ("situp") [] (dispatch ("situp") [] (freshState ("situp")) 0).2
           500).2.repCounter ≠
         (dispatch ("situp") [] (freshState ("situp")) 0).2.repCounter) :=
  claim_C2 ("situp") [] [] (freshState ("situp")) 0 500 (by norm_num)

/-- C8: a request whose exerciseType matches none of the nine dispatched
    identifiers (e.g. a tricep-extension or calf-raise type) runs no
    classifier: the response is the default echo — the session's repCounter,
    its stored stage, and an empty feedback string with no angles key — and
    the stored state is written back unchanged (created fresh if absent),
    with no error raised. -/
theorem claim_C8 (σ : Store) (sid ex : String) (lms : List Landmark) (t : ℤ)
    (h : ex ∉ (["bicepCurl", "squat", "pushup", "shoulderPress", "handstand",
                "pullUp", "situp", "jumpingJacks", "lunge"] : List String)) :
    processLandmarks σ {landmarks := lms, exerciseType := ex, sessionId := sid} t =
      ({repCounter := (getOrInit σ (clientKey sid ex) ex).repCounter,
        stage := (getOrInit σ (clientKey sid ex) ex).stage,
        feedback := some (""), angles := none},
       fun k => if k = clientKey sid ex then some (getOrInit σ (clientKey sid ex) ex)
                else σ k) := by
  simp only [List.mem_cons, List.not_mem_nil, or_false, not_or] at h
  obtain ⟨h1, h2, h3, h4, h5, h6, h7, h8, h9⟩ := h
  unfold processLandmarks dispatch
  dsimp only
  rw [if_neg h1, if_neg h2, if_neg h3, if_neg h4, if_neg h5, if_neg h6, if_neg h7,
      if_neg h8, if_neg h9]

theorem claim_C8_witness :
    processLandmarks (fun _ => none)
        {landmarks := [], exerciseType := ("tricepExtension"), sessionId := ("s")} 0 =
      ({repCounter := (getOrInit (fun _ => none)
          (clientKey ("s") ("tricepExtension")) ("tricepExtension")).repCounter,
        stage := (getOrInit (fun _ => none)
          (clientKey ("s") ("tricepExtension")) ("tricepExtension")).stage,
        feedback := some (""), angles := none},
       fun k => if k = clientKey ("s") ("tricepExtension") then
            some (getOrInit (fun _ => none)
              (clientKey ("s") ("tricepExtension")) ("tricepExtension"))
          else (fun _ => none : Store) k) :=
  claim_C8 (fun _ => none) ("s") ("tricepExtension") [] 0 (by decide)

lemma clientKey_ne (s1 s2 e : String) (h : s1 ≠ s2) : clientKey s1 e ≠ clientKey s2 e := by
  intro heq
  apply h
  unfold clientKey at heq
  have hd := congrArg String.data heq
  simp only [String.data_append] at hd
  have h1 : s1.data ++ ("_").data = s2.data ++ ("_").data :=
    List.append_cancel_right hd
  have h2 : s1.data = s2.data := List.append_cancel_right h1
  exact String.ext h2

/-- C9: session isolation.  Processing a request under a different sessionId
    (same exercise type) leaves the state stored for this session's key
    untouched; and the response and updated own-key state of a request are a
    function only of the store's value at its own key, so two stores agreeing
    there produce identical observable behaviour. -/
theorem claim_C9 (σ τ : Store) (sid1 sid2 ex : String) (lms1 lms2 : List Landmark)
    (t1 t2 : ℤ) (h : sid1 ≠ sid2) :
    (processLandmarks σ {landmarks := lms2, exerciseType := ex, sessionId := sid2} t2).2
        (clientKey sid1 ex) = σ (clientKey sid1 ex) ∧
    (σ (clientKey sid1 ex) = τ (clientKey sid1 ex) →
      (processLandmarks σ {landmarks := lms1, exerciseType := ex, sessionId := sid1} t1).1 =
        (processLandmarks τ {landmarks := lms1, exerciseType := ex, sessionId := sid1} t1).1 ∧
      (processLandmarks σ {landmarks := lms1, exerciseType := ex, sessionId := sid1} t1).2
          (clientKey sid1 ex) =
        (processLandmarks τ {landmarks := lms1, exerciseType := ex, sessionId := sid1} t1).2
          (clientKey sid1 ex)) := by
  constructor
  · exact processLandmarks_frame σ _ t2 (clientKey sid1 ex) (clientKey_ne sid1 sid2 ex h)
  · intro heq
    unfold processLandmarks getOrInit
    dsimp only
    rw [heq]
    exact ⟨rfl, rfl⟩

theorem claim_C9_witness :
    (processLandmarks (fun _ => none)
        {landmarks := [], exerciseType := ("bicepCurl"), sessionId := ("b")} 0).2
        (clientKey ("a") ("bicepCurl")) = (fun _ => none : Store) (clientKey ("a") ("bicepCurl")) ∧
    ((fun _ => none : Store) (clientKey ("a") ("bicepCurl")) =
        (fun _ => none : Store) (clientKey ("a") ("bicepCurl")) →
      (processLandmarks (fun _ => none)
          {landmarks := [], exerciseType := ("bicepCurl"), sessionId := ("a")} 0).1 =
        (processLandmarks (fun _ => none)
          {landmarks := [], exerciseType := ("bicepCurl"), sessionId := ("a")} 0).1 ∧
      (processLandmarks (fun _ => none)
          {landmarks := [], exerciseType := ("bicepCurl"), sessionId := ("a")} 0).2
          (clientKey ("a") ("bicepCurl")) =
        (processLandmarks (fun _ => none)
          {landmarks := [], exerciseType := ("bicepCurl"), sessionId := ("a")} 0).2
          (clientKey ("a") ("bicepCurl"))) :=
  claim_C9 (fun _ => none) (fun _ => none) ("a") ("b") ("bicepCurl") [] [] 0 0 (by decide)

/-- The nine dispatched classifiers, as an index for uniform statements. -/
inductive Classifier
  | bicepCurl
  | squat
  | pushup
  | shoulderPress
  | handstand
  | pullUp
  | situp
  | jumpingJacks
  | lunge

/-- The try-block body of the indexed classifier. -/
noncomputable def runBody (c : Classifier) (lms : List Landmark) (s : ExState)
    (t cd hold : ℤ) : Except (String × ExState) (ExResult × ExState) :=
  match c with
  | .bicepCurl => bicep_body lms s t cd hold
  | .squat => squat_body lms s t cd hold
  | .pushup => pushup_body lms s t cd hold
  | .shoulderPress => press_body lms s t cd hold
  | .handstand => handstand_body lms s t cd hold
  | .pullUp => pullup_body lms s t cd
  | .situp => situp_body lms s t cd hold
  | .jumpingJacks => jj_body lms s t cd hold
  | .lunge => lunge_body lms s t cd hold

/-- The full indexed classifier call (try body plus except clause). -/
noncomputable def runProc (c : Classifier) (lms : List Landmark) (s : ExState)
    (t cd hold : ℤ) : ExResult × ExState :=
  match c with
  | .bicepCurl => process_bicep_curl lms s t cd hold
  | .squat => process_squat lms s t cd hold
  | .pushup => process_pushup lms s t cd hold
  | .shoulderPress => process_shoulder_press lms s t cd hold
  | .handstand => process_handstand lms s t cd hold
  | .pullUp => process_pull_up lms s t cd
  | .situp => process_situp lms s t cd hold
  | .jumpingJacks => process_jumping_jacks lms s t cd hold
  | .lunge => process_lunge lms s t cd hold

lemma runProc_eq_handle (c : Classifier) (lms : List Landmark) (s : ExState)
    (t cd hold : ℤ) :
    runProc c lms s t cd hold = handle (runBody c lms s t cd hold) := by
  cases c <;> rfl

lemma bicep_body_error_fields (lms : List Landmark) (s : ExState) (t cd hold : ℤ)
    (msg : String) (s' : ExState)
    (herr : bicep_body lms s t cd hold = .error (msg, s')) :
    s'.repCounter = s.repCounter ∧ s'.stage = s.stage := by
  unfold bicep_body at herr
  split at herr
  · simp at herr
  · injection herr with h
    injection h with h1 h2
    subst h2
    exact ⟨rfl, rfl⟩

lemma squat_body_error_fields (lms : List Landmark) (s : ExState) (t cd hold : ℤ)
    (msg : String) (s' : ExState)
    (herr : squat_body lms s t cd hold = .error (msg, s')) :
    s'.repCounter = s.repCounter ∧ s'.stage = s.stage := by
  unfold squat_body at herr
  split at herr
  · next lhip lknee lank rhip rknee rank lsh rsh heq =>
      unfold squat_core at herr
      dsimp only at herr
      split at herr <;> split at herr
      · split at herr
        · injection herr with h
          injection h with h1 h2
          subst h2
          exact ⟨rfl, rfl⟩
        · simp at herr
      · simp at herr
      · split at herr
        · injection herr with h
          injection h with h1 h2
          subst h2
          exact ⟨rfl, rfl⟩
        · simp at herr
      · simp at herr
  · injection herr with h
    injection h with h1 h2
    subst h2
    exact ⟨rfl, rfl⟩

lemma pushup_body_error_fields (lms : List Landmark) (s : ExState) (t cd hold : ℤ)
    (msg : String) (s' : ExState)
    (herr : pushup_body lms s t cd hold = .error (msg, s')) :
    s'.repCounter = s.repCounter ∧ s'.stage = s.stage := by
  unfold pushup_body at herr
  split at herr
  · simp at herr
  · injection herr with h
    injection h with h1 h2
    subst h2
    exact ⟨rfl, rfl⟩

lemma press_body_error_fields (lms : List Landmark) (s : ExState) (t cd hold : ℤ)
    (msg : String) (s' : ExState)
    (herr : press_body lms s t cd hold = .error (msg, s')) :
    s'.repCounter = s.repCounter ∧ s'.stage = s.stage := by
  unfold press_body at herr
  split at herr
  · simp at herr
  · injection herr with h
    injection h with h1 h2
    subst h2
    exact ⟨rfl, rfl⟩

lemma handstand_body_error_fields (lms : List Landmark) (s : ExState) (t cd hold : ℤ)
    (msg : String) (s' : ExState)
    (herr : handstand_body lms s t cd hold = .error (msg, s')) :
    s'.repCounter = s.repCounter ∧ s'.stage = s.stage := by
  unfold handstand_body at herr
  split at herr
  · simp at herr
  · injection herr with h
    injection h with h1 h2
    subst h2
    exact ⟨rfl, rfl⟩

lemma pullup_body_error_fields (lms : List Landmark) (s : ExState) (t cd : ℤ)
    (msg : String) (s' : ExState)
    (herr : pullup_body lms s t cd = .error (msg, s')) :
    s'.repCounter = s.repCounter ∧ s'.stage = s.stage := by
  unfold pullup_body at herr
  split at herr
  · simp at herr
  · injection herr with h
    injection h with h1 h2
    subst h2
    exact ⟨rfl, rfl⟩

lemma situp_body_error_fields (lms : List Landmark) (s : ExState) (t cd hold : ℤ)
    (msg : String) (s' : ExState)
    (herr : situp_body lms s t cd hold = .error (msg, s')) :
    s'.repCounter = s.repCounter ∧ s'.stage = s.stage := by
  unfold situp_body at herr
  split at herr
  · simp at herr
  · injection herr with h
    injection h with h1 h2
    subst h2
    exact ⟨rfl, rfl⟩

lemma jj_body_error_fields (lms : List Landmark) (s : ExState) (t cd hold : ℤ)
    (msg : String) (s' : ExState)
    (herr : jj_body lms s t cd hold = .error (msg, s')) :
    s'.repCounter = s.repCounter ∧ s'.stage = s.stage := by
  unfold jj_body at herr
  split at herr
  · simp at herr
  · injection herr with h
    injection h with h1 h2
    subst h2
    exact ⟨rfl, rfl⟩

lemma lunge_body_error_fields (lms : List Landmark) (s : ExState) (t cd hold : ℤ)
    (msg : String) (s' : ExState)
    (herr : lunge_body lms s t cd hold = .error (msg, s')) :
    s'.repCounter = s.repCounter ∧ s'.stage = s.stage := by
  unfold lunge_body at herr
  split at herr
  · simp at herr
  · injection herr with h
    injection h with h1 h2
    subst h2
    exact ⟨rfl, rfl⟩

/-- On every exception path the counter and stage fields of the state carried
    to the except clause still hold their prior values: no classifier mutates
    them before a raise point. -/
lemma runBody_error_fields (c : Classifier) (lms : List Landmark) (s : ExState)
    (t cd hold : ℤ) (msg : String) (s' : ExState)
    (herr : runBody c lms s t cd hold = .error (msg, s')) :
    s'.repCounter = s.repCounter ∧ s'.stage = s.stage := by
  cases c
  case bicepCurl => exact bicep_body_error_fields lms s t cd hold msg s' herr
  case squat => exact squat_body_error_fields lms s t cd hold msg s' herr
  case pushup => exact pushup_body_error_fields lms s t cd hold msg s' herr
  case shoulderPress => exact press_body_error_fields lms s t cd hold msg s' herr
  case handstand => exact handstand_body_error_fields lms s t cd hold msg s' herr
  case pullUp => exact pullup_body_error_fields lms s t cd msg s' herr
  case situp => exact situp_body_error_fields lms s t cd hold msg s' herr
  case jumpingJacks => exact jj_body_error_fields lms s t cd hold msg s' herr
  case lunge => exact lunge_body_error_fields lms s t cd hold msg s' herr

/-- C4: for every classifier, any exception raised in the classifier body is
    caught at the classifier boundary: the call returns a result record whose
    repCounter and stage equal the session state's prior values and whose
    feedback is the diagnostic string, and — the call being a total function —
    no exception propagates to the caller. -/
theorem claim_C4 (c : Classifier) (lms : List Landmark) (s : ExState) (t cd hold : ℤ)
    (msg : String) (s' : ExState)
    (herr : runBody c lms s t cd hold = .error (msg, s')) :
    runProc c lms s t cd hold = (errorResult s msg, s') := by
  obtain ⟨h1, h2⟩ := runBody_error_fields c lms s t cd hold msg s' herr
  rw [runProc_eq_handle, herr]
  unfold handle errorResult
  dsimp only
  rw [h1, h2]

theorem claim_C4_witness :
    runProc (Classifier.bicepCurl) [] (freshState ("bicepCurl")) 0 1000 500 =
      (errorResult (freshState ("bicepCurl")) indexMsg, freshState ("bicepCurl")) :=
  claim_C4 (Classifier.bicepCurl) [] (freshState ("bicepCurl")) 0 1000 500 indexMsg
    (freshState ("bicepCurl")) rfl

/-- Required-landmark verdict per classifier: `none` when the positional
    accesses raise, and for the four classifiers that have no up-front
    required-landmark gate; otherwise whether the gate passes. -/
def requiredOk (c : Classifier) (lms : List Landmark) : Option Bool :=
  match c with
  | .bicepCurl => none
  | .squat => none
  | .pushup => none
  | .shoulderPress => none
  | .handstand => (handstand_lms lms).map
      (fun (lw, rw, lsh, rsh, lh, rh, lk, rk, la, ra) =>
        decide (handstand_required lw rw lsh rsh lh rh lk rk la ra))
  | .pullUp => (bicep_lms lms).map
      (fun (lsh, lel, lwr, rsh, rel, rwr) =>
        decide ((hasXY lsh ∧ hasXY lel ∧ hasXY lwr) ∨
                (hasXY rsh ∧ hasXY rel ∧ hasXY rwr)))
  | .situp => (situp_lms lms).map
      (fun (lsh, lhip, lknee, rsh, rhip, rknee) =>
        decide (situp_required lsh lhip lknee rsh rhip rknee))
  | .jumpingJacks => (jj_lms lms).map
      (fun (lsh, rsh, lel, rel, lwr, rwr, lhip, rhip, lknee, rknee, lank, rank) =>
        decide (jj_required lsh rsh lel rel lwr rwr lhip rhip lknee rknee lank rank))
  | .lunge => (lunge_lms lms).map
      (fun (lhip, lknee, lank, rhip, rknee, rank) =>
        decide (lunge_required lhip lknee lank rhip rknee rank))

/-- The short-circuit result each gated classifier returns when its required
    landmarks are missing; `none` for the classifiers without such a gate. -/
def scShort (c : Classifier) (s : ExState) : Option ExResult :=
  match c with
  | .handstand => some (ExResult.mk s.repCounter s.stage
      (some ("Move to ensure full body is visible")) none)
  | .pullUp => some (ExResult.mk s.repCounter s.stage
      (some ("Position not clear - adjust camera")) none)
  | .situp => some (ExResult.mk s.repCounter s.stage
      (some ("Position not clear - adjust camera")) (some []))
  | .jumpingJacks => some (ExResult.mk s.repCounter s.stage
      (some ("Position not clear - adjust camera")) (some []))
  | .lunge => some (ExResult.mk s.repCounter s.stage
      (some ("Position not clear - adjust camera")) (some []))
  | _ => none

/-- C5 counterexample: the bicep-curl classifier — one of the nine dispatched
    exercise types — given a frame on which every required landmark lacks the
    x/y keys, does not short-circuit with a "not clear" guidance feedback: its
    result carries no feedback key at all (the repCounter part of the claim
    does hold: the counter is unchanged). -/
theorem claim_C5_counterexample :
    (process_bicep_curl (List.replicate 17 noLm) (freshState ("bicepCurl"))
        0 1000 500).1.feedback = none ∧
    (process_bicep_curl (List.replicate 17 noLm) (freshState ("bicepCurl"))
        0 1000 500).1.repCounter = (freshState ("bicepCurl")).repCounter := by
  constructor <;> rfl

/-- C5 (amended): only the five classifiers that gate on required landmarks
    short-circuit on a frame lacking x/y keys — pullUp, situp, jumpingJacks
    and lunge with feedback "Position not clear - adjust camera" (containing
    "not clear"), and handstand with "Move to ensure full body is visible" —
    leaving the session state untouched and returning the prior repCounter
    with an empty (situp, jumpingJacks, lunge) or absent (pullUp, handstand)
    angles map.  The bicep-curl, squat, pushup and shoulder-press classifiers
    have no such gate (see the counterexample). -/
theorem claim_C5_amended (c : Classifier) (lms : List Landmark) (s : ExState)
    (t cd hold : ℤ) (r : ExResult)
    (hsc : scShort c s = some r) (hreq : requiredOk c lms = some false) :
    runProc c lms s t cd hold = (r, s) := by
  cases c
  case bicepCurl => simp [scShort] at hsc
  case squat => simp [scShort] at hsc
  case pushup => simp [scShort] at hsc
  case shoulderPress => simp [scShort] at hsc
  case handstand =>
    simp only [scShort, Option.some.injEq] at hsc
    subst hsc
    rcases hmatch : handstand_lms lms with _ | ⟨lw, rw, lsh, rsh, lh, rh, lk, rk, la, ra⟩
    · simp [requiredOk, hmatch] at hreq
    · simp only [requiredOk, hmatch, Option.map_some', Option.some.injEq] at hreq
      have hfail : ¬ handstand_required lw rw lsh rsh lh rh lk rk la ra :=
        of_decide_eq_false hreq
      show process_handstand lms s t cd hold = _
      unfold process_handstand handstand_body
      rw [hmatch]
      show handle (.ok (handstand_core lw rw lsh rsh lh rh lk rk la ra s t cd hold)) = _
      unfold handle handstand_core
      dsimp only
      rw [if_neg hfail]
  case pullUp =>
    simp only [scShort, Option.some.injEq] at hsc
    subst hsc
    rcases hmatch : bicep_lms lms with _ | ⟨lsh, lel, lwr, rsh, rel, rwr⟩
    · simp [requiredOk, hmatch] at hreq
    · simp only [requiredOk, hmatch, Option.map_some', Option.some.injEq] at hreq
      have hfail : ¬ ((hasXY lsh ∧ hasXY lel ∧ hasXY lwr) ∨
          (hasXY rsh ∧ hasXY rel ∧ hasXY rwr)) := of_decide_eq_false hreq
      show process_pull_up lms s t cd = _
      unfold process_pull_up pullup_body
      rw [hmatch]
      show handle (.ok (pullup_core lsh lel lwr rsh rel rwr s t cd)) = _
      unfold handle pullup_core
      dsimp only
      rw [if_pos (not_or.mp hfail)]
  case situp =>
    simp only [scShort, Option.some.injEq] at hsc
    subst hsc
    rcases hmatch : situp_lms lms with _ | ⟨lsh, lhip, lknee, rsh, rhip, rknee⟩
    · simp [requiredOk, hmatch] at hreq
    · simp only [requiredOk, hmatch, Option.map_some', Option.some.injEq] at hreq
      have hfail : ¬ situp_required lsh lhip lknee rsh rhip rknee :=
        of_decide_eq_false hreq
      show process_situp lms s t cd hold = _
      unfold process_situp situp_body
      rw [hmatch]
      show handle (.ok (situp_core lsh lhip lknee rsh rhip rknee s t cd hold)) = _
      unfold handle situp_core
      dsimp only
      rw [if_neg hfail]
  case jumpingJacks =>
    simp only [scShort, Option.some.injEq] at hsc
    subst hsc
    rcases hmatch : jj_lms lms with _ |
      ⟨lsh, rsh, lel, rel, lwr, rwr, lhip, rhip, lknee, rknee, lank, rank⟩
    · simp [requiredOk, hmatch] at hreq
    · simp only [requiredOk, hmatch, Option.map_some', Option.some.injEq] at hreq
      have hfail : ¬ jj_required lsh rsh lel rel lwr rwr lhip rhip lknee rknee lank rank :=
        of_decide_eq_false hreq
      show process_jumping_jacks lms s t cd hold = _
      unfold process_jumping_jacks jj_body
      rw [hmatch]
      show handle (.ok (jj_core lsh rsh lel rel lwr rwr lhip rhip lknee rknee lank rank
        s t cd hold)) = _
      unfold handle jj_core
      dsimp only
      rw [if_neg hfail]
  case lunge =>
    simp only [scShort, Option.some.injEq] at hsc
    subst hsc
    rcases hmatch : lunge_lms lms with _ | ⟨lhip, lknee, lank, rhip, rknee, rank⟩
    · simp [requiredOk, hmatch] at hreq
    · simp only [requiredOk, hmatch, Option.map_some', Option.some.injEq] at hreq
      have hfail : ¬ lunge_required lhip lknee lank rhip rknee rank :=
        of_decide_eq_false hreq
      show process_lunge lms s t cd hold = _
      unfold process_lunge lunge_body
      rw [hmatch]
      show handle (.ok (lunge_core lhip lknee lank rhip rknee rank s t cd hold)) = _
      unfold handle lunge_core
      dsimp only
      rw [if_neg hfail]

theorem claim_C5_witness :
    runProc (Classifier.pullUp) (List.replicate 17 noLm) (freshState ("pullUp"))
        0 1000 500 =
      ({repCounter := (freshState ("pullUp")).repCounter,
        stage := (freshState ("pullUp")).stage,
        feedback := some ("Position not clear - adjust camera"), angles := none},
       freshState ("pullUp")) :=
  claim_C5_amended (Classifier.pullUp) (List.replicate 17 noLm) (freshState ("pullUp"))
    0 1000 500
    (ExResult.mk (freshState ("pullUp")).repCounter (freshState ("pullUp")).stage
      (some ("Position not clear - adjust camera")) none)
    rfl rfl

/-- A 29-landmark frame carrying the ten landmarks the handstand classifier
    reads (wrists 15/16, shoulders 11/12, hips 23/24, knees 25/26,
    ankles 27/28); the other entries lack coordinates. -/
def mkHandstandFrame (lw rw lsh rsh lh rh lk rk la ra : Pt) : List Landmark :=
  [noLm, noLm, noLm, noLm, noLm, noLm, noLm, noLm, noLm, noLm, noLm,
   mkLm lsh, mkLm rsh, noLm, noLm, mkLm lw, mkLm rw,
   noLm, noLm, noLm, noLm, noLm, noLm,
   mkLm lh, mkLm rh, mkLm lk, mkLm rk, mkLm la, mkLm ra]

lemma handstand_lms_mkFrame (lw rw lsh rsh lh rh lk rk la ra : Pt) :
    handstand_lms (mkHandstandFrame lw rw lsh rsh lh rh lk rk la ra) =
      some (mkLm lw, mkLm rw, mkLm lsh, mkLm rsh, mkLm lh, mkLm rh,
            mkLm lk, mkLm rk, mkLm la, mkLm ra) := rfl

/-- One handstand call in a held good-form position past the hold threshold
    and cooldown: the counter increments and `lastRepTime` advances to `t`;
    `stage` and `holdStart` keep their values. -/
lemma handstand_step_hold (lw rw lsh rsh lh rh lk rk la ra : Pt) (s : ExState) (t : ℤ)
    (hstage : s.stage = ("inverted"))
    (hform : handstand_good_form lw rw lsh rsh lh rh lk rk la ra)
    (hh : t - s.holdStart > 500) (hc : t - s.lastRepTime > 1000) :
    (process_handstand (mkHandstandFrame lw rw lsh rsh lh rh lk rk la ra) s t 1000 500).2 =
      {s with lastRepTime := t, repCounter := s.repCounter + 1} ∧
    (process_handstand (mkHandstandFrame lw rw lsh rsh lh rh lk rk la ra)
        s t 1000 500).1.repCounter = s.repCounter + 1 := by
  unfold process_handstand handstand_body
  rw [handstand_lms_mkFrame]
  show Prod.snd (handle (.ok (handstand_core (mkLm lw) (mkLm rw) (mkLm lsh) (mkLm rsh)
      (mkLm lh) (mkLm rh) (mkLm lk) (mkLm rk) (mkLm la) (mkLm ra) s t 1000 500))) = _ ∧ _
  unfold handle handstand_core
  dsimp only
  have hreq10 : handstand_required (mkLm lw) (mkLm rw) (mkLm lsh) (mkLm rsh) (mkLm lh)
      (mkLm rh) (mkLm lk) (mkLm rk) (mkLm la) (mkLm ra) :=
    ⟨hasXY_mkLm lw, hasXY_mkLm rw, hasXY_mkLm lsh, hasXY_mkLm rsh, hasXY_mkLm lh,
     hasXY_mkLm rh, hasXY_mkLm lk, hasXY_mkLm rk, hasXY_mkLm la, hasXY_mkLm ra⟩
  rw [if_pos hreq10]
  simp only [pt_mkLm]
  unfold hs_detect
  rw [if_pos hform]
  dsimp only
  have hent : ¬ (s.stage ≠ ("inverted")) := by
    rw [hstage]
    simp
  rw [if_neg hent, if_neg hent]
  rw [if_pos ⟨hh, hstage⟩, if_pos hc]
  unfold apply_detect
  exact ⟨rfl, rfl⟩

/-- C10: for the handstand classifier, one continuous good-form hold yields
    multiple rep increments: from an "inverted" state already held past the
    500 ms threshold, each call more than 1000 ms after the previous increment
    increments `repCounter` again and advances `lastRepTime`, so two such
    calls add two to the counter. -/
theorem claim_C10 (lw rw lsh rsh lh rh lk rk la ra : Pt) (s : ExState) (t1 t2 : ℤ)
    (hstage : s.stage = ("inverted"))
    (hform : handstand_good_form lw rw lsh rsh lh rh lk rk la ra)
    (hh : t1 - s.holdStart > 500) (hc : t1 - s.lastRepTime > 1000)
    (ht : t2 - t1 > 1000) :
    (process_handstand (mkHandstandFrame lw rw lsh rsh lh rh lk rk la ra)
        s t1 1000 500).1.repCounter = s.repCounter + 1 ∧
    (process_handstand (mkHandstandFrame lw rw lsh rsh lh rh lk rk la ra)
        s t1 1000 500).2.lastRepTime = t1 ∧
    (process_handstand (mkHandstandFrame lw rw lsh rsh lh rh lk rk la ra)
        (process_handstand (mkHandstandFrame lw rw lsh rsh lh rh lk rk la ra)
          s t1 1000 500).2 t2 1000 500).1.repCounter = s.repCounter + 2 ∧
    (process_handstand (mkHandstandFrame lw rw lsh rsh lh rh lk rk la ra)
        (process_handstand (mkHandstandFrame lw rw lsh rsh lh rh lk rk la ra)
          s t1 1000 500).2 t2 1000 500).2.repCounter = s.repCounter + 2 ∧
    (process_handstand (mkHandstandFrame lw rw lsh rsh lh rh lk rk la ra)
        (process_handstand (mkHandstandFrame lw rw lsh rsh lh rh lk rk la ra)
          s t1 1000 500).2 t2 1000 500).2.lastRepTime = t2 := by
  obtain ⟨hs1, hr1⟩ := handstand_step_hold lw rw lsh rsh lh rh lk rk la ra s t1
    hstage hform hh hc
  obtain ⟨hs2, hr2⟩ := handstand_step_hold lw rw lsh rsh lh rh lk rk la ra
    {s with lastRepTime := t1, repCounter := s.repCounter + 1} t2
    hstage hform (by dsimp only; omega) (by dsimp only; omega)
  rw [hs1, hr1, hs2, hr2]
  refine ⟨rfl, rfl, ?_, ?_, rfl⟩ <;> dsimp only <;> omega

lemma handstand_witness_form :
    handstand_good_form ⟨0, 1⟩ ⟨1, 1⟩ ⟨0, 0.8⟩ ⟨1, 0.8⟩ ⟨0, 0.5⟩ ⟨1, 0.5⟩
      ⟨0, 0.3⟩ ⟨1, 0.3⟩ ⟨0, 0.1⟩ ⟨1, 0.1⟩ := by
  unfold handstand_good_form
  refine ⟨?_, ?_, ?_, ?_, ?_, ?_⟩
  · unfold hs_inverted
    norm_num
  · unfold hs_straight
    rw [calculate_angle_vertical 0 0.8 0.5 0.3 (by norm_num) (by norm_num)]
    norm_num
  · unfold hs_straight
    rw [calculate_angle_vertical 1 0.8 0.5 0.3 (by norm_num) (by norm_num)]
    norm_num
  · unfold hs_straight
    rw [calculate_angle_vertical 0 0.5 0.3 0.1 (by norm_num) (by norm_num)]
    norm_num
  · unfold hs_straight
    rw [calculate_angle_vertical 1 0.5 0.3 0.1 (by norm_num) (by norm_num)]
    norm_num
  · unfold hs_hand_good hs_wq
    have h1 : Real.sqrt (((1 : ℝ) - 0) ^ 2 + ((1 : ℝ) - 1) ^ 2) = 1 := by norm_num
    have h2 : Real.sqrt (((1 : ℝ) - 0) ^ 2 + ((0.8 : ℝ) - 0.8) ^ 2) = 1 := by norm_num
    dsimp only
    rw [h1, h2]
    rw [if_pos (by norm_num : (1 : ℝ) > 0)]
    norm_num

theorem claim_C10_witness :
    (process_handstand (mkHandstandFrame ⟨0, 1⟩ ⟨1, 1⟩ ⟨0, 0.8⟩ ⟨1, 0.8⟩ ⟨0, 0.5⟩ ⟨1, 0.5⟩
        ⟨0, 0.3⟩ ⟨1, 0.3⟩ ⟨0, 0.1⟩ ⟨1, 0.1⟩)
        {freshState ("handstand") with stage := ("inverted")} 2000 1000 500).1.repCounter =
      ({freshState ("handstand") with stage := ("inverted")} : ExState).repCounter + 1 ∧
    (process_handstand (mkHandstandFrame ⟨0, 1⟩ ⟨1, 1⟩ ⟨0, 0.8⟩ ⟨1, 0.8⟩ ⟨0, 0.5⟩ ⟨1, 0.5⟩
        ⟨0, 0.3⟩ ⟨1, 0.3⟩ ⟨0, 0.1⟩ ⟨1, 0.1⟩)
        {freshState ("handstand") with stage := ("inverted")} 2000 1000 500).2.lastRepTime =
      2000 ∧
    (process_handstand (mkHandstandFrame ⟨0, 1⟩ ⟨1, 1⟩ ⟨0, 0.8⟩ ⟨1, 0.8⟩ ⟨0, 0.5⟩ ⟨1, 0.5⟩
        ⟨0, 0.3⟩ ⟨1, 0.3⟩ ⟨0, 0.1⟩ ⟨1, 0.1⟩)
        (process_handstand (mkHandstandFrame ⟨0, 1⟩ ⟨1, 1⟩ ⟨0, 0.8⟩ ⟨1, 0.8⟩ ⟨0, 0.5⟩
            ⟨1, 0.5⟩ ⟨0, 0.3⟩ ⟨1, 0.3⟩ ⟨0, 0.1⟩ ⟨1, 0.1⟩)
          {freshState ("handstand") with stage := ("inverted")} 2000 1000 500).2
        4000 1000 500).1.repCounter =
      ({freshState ("handstand") with stage := ("inverted")} : ExState).repCounter + 2 ∧
    (process_handstand (mkHandstandFrame ⟨0, 1⟩ ⟨1, 1⟩ ⟨0, 0.8⟩ ⟨1, 0.8⟩ ⟨0, 0.5⟩ ⟨1, 0.5⟩
        ⟨0, 0.3⟩ ⟨1, 0.3⟩ ⟨0, 0.1⟩ ⟨1, 0.1⟩)
        (process_handstand (mkHandstandFrame ⟨0, 1⟩ ⟨1, 1⟩ ⟨0, 0.8⟩ ⟨1, 0.8⟩ ⟨0, 0.5⟩
            ⟨1, 0.5⟩ ⟨0, 0.3⟩ ⟨1, 0.3⟩ ⟨0, 0.1⟩ ⟨1, 0.1⟩)
          {freshState ("handstand") with stage := ("inverted")} 2000 1000 500).2
        4000 1000 500).2.repCounter =
      ({freshState ("handstand") with stage := ("inverted")} : ExState).repCounter + 2 ∧
    (process_handstand (mkHandstandFrame ⟨0, 1⟩ ⟨1, 1⟩ ⟨0, 0.8⟩ ⟨1, 0.8⟩ ⟨0, 0.5⟩ ⟨1, 0.5⟩
        ⟨0, 0.3⟩ ⟨1, 0.3⟩ ⟨0, 0.1⟩ ⟨1, 0.1⟩)
        (process_handstand (mkHandstandFrame ⟨0, 1⟩ ⟨1, 1⟩ ⟨0, 0.8⟩ ⟨1, 0.8⟩ ⟨0, 0.5⟩
            ⟨1, 0.5⟩ ⟨0, 0.3⟩ ⟨1, 0.3⟩ ⟨0, 0.1⟩ ⟨1, 0.1⟩)
          {freshState ("handstand") with stage := ("inverted")} 2000 1000 500).2
        4000 1000 500).2.lastRepTime = 4000 :=
  claim_C10 ⟨0, 1⟩ ⟨1, 1⟩ ⟨0, 0.8⟩ ⟨1, 0.8⟩ ⟨0, 0.5⟩ ⟨1, 0.5⟩ ⟨0, 0.3⟩ ⟨1, 0.3⟩
    ⟨0, 0.1⟩ ⟨1, 0.1⟩ {freshState ("handstand") with stage := ("inverted")} 2000 4000
    rfl handstand_witness_form (by decide) (by decide) (by decide)
